import Mathlib

/-!
Verification of the OpticsLab 2D geometric-optics ray-tracing engine.

The development shallowly embeds the engine's TypeScript sources over the
real numbers: the geometry kernel (Geometry.ts), the optical-element
variants (SegmentMirror, BeamSplitterElement, HalfPlaneGlass, CircleGlass,
PolygonGlass, IdealLens, LineBlocker, PointSourceElement, SingleRaySource),
the propagation engine (RayTracer.ts) and the scene aggregator
(OpticsScene.ts).  JavaScript numbers are modelled as real numbers,
`Math.hypot`/`Math.sqrt` as `Real.sqrt`, `Math.round` as `round half up`,
mutation as explicit state passing, and the engine's work-queue loop as a
fuel-indexed recursion (the fuel only pads the proven-terminating loop).
-/

namespace OpticsLab

noncomputable section

/-- A 2D point / vector with real coordinates (interface Point). -/
structure Pt where
  x : ℝ
  y : ℝ

/-- A line segment between two points (interface Segment). -/
structure Seg where
  p1 : Pt
  p2 : Pt

/-- A circle given by center and radius (interface Circle). -/
structure Circ where
  center : Pt
  radius : ℝ

/-- Math.hypot of the source, for vector lengths. -/
def hypot (x y : ℝ) : ℝ := Real.sqrt (x * x + y * y)

/-- distance from Geometry.ts. -/
def distance (p1 p2 : Pt) : ℝ := hypot (p2.x - p1.x) (p2.y - p1.y)

/-- distanceSquared from Geometry.ts. -/
def distanceSquared (p1 p2 : Pt) : ℝ :=
  (p2.x - p1.x) * (p2.x - p1.x) + (p2.y - p1.y) * (p2.y - p1.y)

/-- dot product from Geometry.ts. -/
def dot (a b : Pt) : ℝ := a.x * b.x + a.y * b.y

/-- cross product from Geometry.ts. -/
def cross (a b : Pt) : ℝ := a.x * b.y - a.y * b.x

/-- normalize from Geometry.ts: zero vector maps to zero, otherwise divide by length. -/
def normalize (p : Pt) : Pt :=
  let len := hypot p.x p.y
  if len = 0 then ⟨0, 0⟩ else ⟨p.x / len, p.y / len⟩

/-- scale from Geometry.ts. -/
def scale (p : Pt) (s : ℝ) : Pt := ⟨p.x * s, p.y * s⟩

/-- add from Geometry.ts. -/
def addPt (a b : Pt) : Pt := ⟨a.x + b.x, a.y + b.y⟩

/-- subtract from Geometry.ts. -/
def subtract (a b : Pt) : Pt := ⟨a.x - b.x, a.y - b.y⟩

/-- segmentMidpoint from Geometry.ts. -/
def segmentMidpoint (seg : Seg) : Pt :=
  ⟨(seg.p1.x + seg.p2.x) / 2, (seg.p1.y + seg.p2.y) / 2⟩

/-- segmentNormal from Geometry.ts: left-hand unit normal of p1→p2. -/
def segmentNormal (seg : Seg) : Pt :=
  normalize ⟨seg.p2.y - seg.p1.y, -(seg.p2.x - seg.p1.x)⟩

/-- A ray parameter together with the hit point, as returned by the
intersection routines of Geometry.ts. -/
structure RayHit where
  t : ℝ
  point : Pt

/-- The tolerance 1e-6 on the ray parameter, excluding the originating surface. -/
def T_EPS : ℝ := 1 / 1000000

/-- The tolerance 1e-12 below which the 2×2 system is considered parallel. -/
def PARALLEL_EPS : ℝ := 1 / 1000000000000

/-- raySegmentIntersection from Geometry.ts: solve the 2×2 linear system,
reject parallel configurations and accept t > 1e-6, u ∈ [0,1]. -/
def raySegmentIntersection (rayOrigin rayDir : Pt) (seg : Seg) : Option RayHit :=
  let dx := seg.p2.x - seg.p1.x
  let dy := seg.p2.y - seg.p1.y
  let denom := rayDir.x * dy - rayDir.y * dx
  if |denom| < PARALLEL_EPS then none
  else
    let ox := seg.p1.x - rayOrigin.x
    let oy := seg.p1.y - rayOrigin.y
    let t := (ox * dy - oy * dx) / denom
    let u := (ox * rayDir.y - oy * rayDir.x) / denom
    if t > T_EPS ∧ 0 ≤ u ∧ u ≤ 1 then
      some ⟨t, ⟨rayOrigin.x + rayDir.x * t, rayOrigin.y + rayDir.y * t⟩⟩
    else none

/-- rayCircleIntersections from Geometry.ts: quadratic solve, keep the roots
with t > 1e-6, ascending (the source sorts the ≤ 2 kept roots by t). -/
def rayCircleIntersections (rayOrigin rayDir : Pt) (c : Circ) : List RayHit :=
  let ox := rayOrigin.x - c.center.x
  let oy := rayOrigin.y - c.center.y
  let a := rayDir.x * rayDir.x + rayDir.y * rayDir.y
  let b := 2 * (ox * rayDir.x + oy * rayDir.y)
  let cc := ox * ox + oy * oy - c.radius * c.radius
  let disc := b * b - 4 * a * cc
  if disc < 0 then []
  else
    let sqrtDisc := Real.sqrt disc
    let tLo := (-b + (-1) * sqrtDisc) / (2 * a)
    let tHi := (-b + 1 * sqrtDisc) / (2 * a)
    let keep := fun t : ℝ =>
      if t > T_EPS then [RayHit.mk t ⟨rayOrigin.x + rayDir.x * t, rayOrigin.y + rayDir.y * t⟩]
      else []
    (keep tLo ++ keep tHi).mergeSort (fun r1 r2 => r1.t ≤ r2.t)

/-- pointInPolygon from Geometry.ts: even-odd horizontal-crossing test. -/
def pointInPolygon (p : Pt) (vertices : List Pt) : Bool :=
  let n := vertices.length
  (List.range n).foldl
    (fun inside i =>
      let vi := vertices.getD i ⟨0, 0⟩
      let vj := vertices.getD ((i + n - 1) % n) ⟨0, 0⟩
      if (decide (vi.y > p.y) ≠ decide (vj.y > p.y)) ∧
          p.x < (vj.x - vi.x) * (p.y - vi.y) / (vj.y - vi.y) + vi.x then
        !inside
      else inside)
    false

/-- pointInCircle from Geometry.ts. -/
def pointInCircle (p : Pt) (c : Circ) : Bool :=
  decide (distanceSquared p c.center < c.radius * c.radius)

/-- reflect from Geometry.ts: reflect a direction vector about a normal. -/
def reflect (direction normal : Pt) : Pt :=
  let d := dot direction normal
  ⟨direction.x - 2 * d * normal.x, direction.y - 2 * d * normal.y⟩

/-- refract from Geometry.ts: vector Snell's law, none on total internal reflection. -/
def refract (direction normal : Pt) (n1 n2 : ℝ) : Option Pt :=
  let cosI := -(dot direction normal)
  let sinI2 := 1 - cosI * cosI
  let ratio := n1 / n2
  let sinT2 := ratio * ratio * sinI2
  if sinT2 > 1 then none
  else
    let cosT := Real.sqrt (1 - sinT2)
    some ⟨ratio * direction.x + (ratio * cosI - cosT) * normal.x,
          ratio * direction.y + (ratio * cosI - cosT) * normal.y⟩

/-- fresnelReflectance from Geometry.ts: s/p reflectances, (1,1) under TIR. -/
def fresnelReflectance (cosI n1 n2 : ℝ) : ℝ × ℝ :=
  let sinI2 := 1 - cosI * cosI
  let ratio := n1 / n2
  let sinT2 := ratio * ratio * sinI2
  if sinT2 > 1 then (1, 1)
  else
    let cosT := Real.sqrt (1 - sinT2)
    let absCosI := |cosI|
    let Rs := ((n1 * absCosI - n2 * cosT) / (n1 * absCosI + n2 * cosT)) ^ 2
    let Rp := ((n1 * cosT - n2 * absCosI) / (n1 * cosT + n2 * absCosI)) ^ 2
    (Rs, Rp)

/-- The view modes of OpticsTypes.ts. -/
inductive ViewMode where
  | rays
  | extended
  | images
  | observer
deriving DecidableEq

/-- A simulation ray (interface SimulationRay of OpticsTypes.ts). -/
structure SimulationRay where
  origin : Pt
  direction : Pt
  brightnessS : ℝ
  brightnessP : ℝ
  gap : Bool
  isNew : Bool
  wavelength : Option ℝ

/-- Image kinds of OpticsTypes.ts. -/
inductive ImageType where
  | real
  | virtual
  | virtualObject
deriving DecidableEq

/-- A detected image (interface DetectedImage of OpticsTypes.ts). -/
structure DetectedImage where
  position : Pt
  imageType : ImageType
  brightness : ℝ

/-- An observer (interface Observer of OpticsTypes.ts). -/
structure Observer where
  position : Pt
  radius : ℝ

/-- Element categories of OpticsTypes.ts. -/
inductive ElementCategory where
  | lightSource
  | mirror
  | glass
  | blocker
deriving DecidableEq

/-- Polygon path vertex of PolygonGlass.ts (arc control points are flagged). -/
structure PolygonVertex where
  x : ℝ
  y : ℝ
  arc : Bool

/-- The embedded optical-element variants.  Each constructor carries the
fields of the corresponding TypeScript class; `id` stands for the
base-class element id. -/
inductive Element where
  | segmentMirror (id : ℕ) (p1 p2 : Pt)
  | beamSplitter (id : ℕ) (p1 p2 : Pt) (transmitFrac : ℝ)
  | halfPlaneGlass (id : ℕ) (p1 p2 : Pt) (refIndex : ℝ)
  | circleGlass (id : ℕ) (p1 p2 : Pt) (refIndex : ℝ)
  | polygonGlass (id : ℕ) (path : List PolygonVertex) (refIndex : ℝ)
  | idealLens (id : ℕ) (p1 p2 : Pt) (focalLength : ℝ)
  | lineBlocker (id : ℕ) (p1 p2 : Pt)
  | pointSource (id : ℕ) (position : Pt) (brightness wavelength : ℝ)
  | singleRaySource (id : ℕ) (p1 p2 : Pt) (brightness wavelength : ℝ)

/-- The element id of the shared base class. -/
def Element.eid : Element → ℕ
  | .segmentMirror i _ _ => i
  | .beamSplitter i _ _ _ => i
  | .halfPlaneGlass i _ _ _ => i
  | .circleGlass i _ _ _ => i
  | .polygonGlass i _ _ => i
  | .idealLens i _ _ _ => i
  | .lineBlocker i _ _ => i
  | .pointSource i _ _ _ => i
  | .singleRaySource i _ _ _ _ => i

/-- The category field of each element class. -/
def Element.category : Element → ElementCategory
  | .segmentMirror _ _ _ => .mirror
  | .beamSplitter _ _ _ _ => .mirror
  | .halfPlaneGlass _ _ _ _ => .glass
  | .circleGlass _ _ _ _ => .glass
  | .polygonGlass _ _ _ => .glass
  | .idealLens _ _ _ _ => .glass
  | .lineBlocker _ _ _ => .blocker
  | .pointSource _ _ _ _ => .lightSource
  | .singleRaySource _ _ _ _ _ => .lightSource

/-- An intersection result (interface IntersectionResult of OpticsTypes.ts). -/
structure IntersectionResult where
  point : Pt
  t : ℝ
  element : Element
  normal : Pt

/-- A ray interaction result (interface RayInteractionResult of OpticsTypes.ts). -/
structure RayInteractionResult where
  isAbsorbed : Bool
  outgoingRay : Option SimulationRay
  newRays : List SimulationRay
  truncation : Option ℝ

/-- MIN_RAY_LENGTH_SQ from OpticsConstants.ts (1e-6). -/
def MIN_RAY_LENGTH_SQ : ℝ := 1 / 1000000

/-- FRESNEL_REFLECTION_THRESHOLD from OpticsConstants.ts (0.01). -/
def FRESNEL_REFLECTION_THRESHOLD : ℝ := 1 / 100

/-- POLARIZATION_SPLIT from OpticsConstants.ts (0.5). -/
def POLARIZATION_SPLIT : ℝ := 1 / 2

/-- RAY_DENSITY_SCALE from OpticsConstants.ts (500). -/
def RAY_DENSITY_SCALE : ℝ := 500

/-- GREEN_WAVELENGTH from LightSourceConstants.ts (532 nm). -/
def GREEN_WAVELENGTH : ℝ := 532

/-- SegmentMirror.checkRayIntersection: segment hit with the normal flipped
to face the incoming ray. -/
def segmentMirrorCheck (self : Element) (p1 p2 : Pt) (ray : SimulationRay) :
    Option IntersectionResult :=
  match raySegmentIntersection ray.origin ray.direction ⟨p1, p2⟩ with
  | none => none
  | some hit =>
    let normal := segmentNormal ⟨p1, p2⟩
    let facingRay := if dot normal ray.direction < 0 then normal else Pt.mk (-normal.x) (-normal.y)
    some ⟨hit.point, hit.t, self, facingRay⟩

/-- SegmentMirror.onRayIncident: reflect the direction back toward the origin
using the component formula of the source. -/
def segmentMirrorIncident (ray : SimulationRay) (intersection : IntersectionResult) :
    RayInteractionResult :=
  let inDir := normalize (subtract ray.origin intersection.point)
  let n := intersection.normal
  let reflectedDir := Pt.mk
    (inDir.x * (n.y * n.y - n.x * n.x) - 2 * inDir.y * n.x * n.y)
    (inDir.y * (n.x * n.x - n.y * n.y) - 2 * inDir.x * n.x * n.y)
  { isAbsorbed := false
    outgoingRay := some
      { origin := intersection.point
        direction := normalize ⟨-reflectedDir.x, -reflectedDir.y⟩
        brightnessS := ray.brightnessS
        brightnessP := ray.brightnessP
        gap := false
        isNew := false
        wavelength := ray.wavelength }
    newRays := []
    truncation := none }

/-- BeamSplitterElement.onRayIncident: always split into a transmitted ray
(transmitFrac of the brightness, original direction) and a reflected ray
(the remainder, gap = true). -/
def beamSplitterIncident (transmitFrac : ℝ) (ray : SimulationRay)
    (intersection : IntersectionResult) : RayInteractionResult :=
  let n := intersection.normal
  let d := ray.direction
  let dn := dot d n
  let reflectedDir := normalize ⟨d.x - 2 * dn * n.x, d.y - 2 * dn * n.y⟩
  let reflectRatioV := 1 - transmitFrac
  let reflectedRay : SimulationRay :=
    { origin := intersection.point
      direction := reflectedDir
      brightnessS := ray.brightnessS * reflectRatioV
      brightnessP := ray.brightnessP * reflectRatioV
      gap := true
      isNew := false
      wavelength := ray.wavelength }
  let transmittedRay : SimulationRay :=
    { origin := intersection.point
      direction := ⟨d.x, d.y⟩
      brightnessS := ray.brightnessS * transmitFrac
      brightnessP := ray.brightnessP * transmitFrac
      gap := false
      isNew := false
      wavelength := ray.wavelength }
  { isAbsorbed := false
    outgoingRay := some transmittedRay
    newRays := [reflectedRay]
    truncation := none }

/-- HalfPlaneGlass.checkRayIntersection: segment hit with the fixed segment
normal (no flip toward the ray). -/
def halfPlaneGlassCheck (self : Element) (p1 p2 : Pt) (ray : SimulationRay) :
    Option IntersectionResult :=
  match raySegmentIntersection ray.origin ray.direction ⟨p1, p2⟩ with
  | none => none
  | some hit => some ⟨hit.point, hit.t, self, segmentNormal ⟨p1, p2⟩⟩

/-- HalfPlaneGlass.onRayIncident: Snell's law with Fresnel splitting; the
side is chosen by the sign of cos of incidence against the stored normal. -/
def halfPlaneGlassIncident (refIndex : ℝ) (ray : SimulationRay)
    (intersection : IntersectionResult) : RayInteractionResult :=
  let n0 := intersection.normal
  let cosI := -(dot ray.direction n0)
  let n := if 0 < cosI then n0 else Pt.mk (-n0.x) (-n0.y)
  let n1 := if 0 < cosI then 1 else refIndex
  let n2 := if 0 < cosI then refIndex else 1
  match refract ray.direction n n1 n2 with
  | none =>
    { isAbsorbed := false
      outgoingRay := some
        { origin := intersection.point
          direction := normalize (reflect ray.direction n)
          brightnessS := ray.brightnessS
          brightnessP := ray.brightnessP
          gap := false
          isNew := false
          wavelength := ray.wavelength }
      newRays := []
      truncation := none }
  | some refractedDir =>
    let absCosI := |dot ray.direction n|
    let fr := fresnelReflectance absCosI n1 n2
    let outgoing : SimulationRay :=
      { origin := intersection.point
        direction := normalize refractedDir
        brightnessS := ray.brightnessS * (1 - fr.1)
        brightnessP := ray.brightnessP * (1 - fr.2)
        gap := false
        isNew := false
        wavelength := ray.wavelength }
    let reflBrightS := ray.brightnessS * fr.1
    let reflBrightP := ray.brightnessP * fr.2
    let newRays :=
      if reflBrightS + reflBrightP > FRESNEL_REFLECTION_THRESHOLD then
        [({ origin := intersection.point
            direction := normalize (reflect ray.direction n)
            brightnessS := reflBrightS
            brightnessP := reflBrightP
            gap := true
            isNew := false
            wavelength := ray.wavelength } : SimulationRay)]
      else []
    { isAbsorbed := false
      outgoingRay := some outgoing
      newRays := newRays
      truncation := none }

/-- CircleGlass.checkRayIntersection: first circle hit beyond the minimum ray
length, with the outward radial normal (no flip toward the ray). -/
def circleGlassCheck (self : Element) (p1 p2 : Pt) (ray : SimulationRay) :
    Option IntersectionResult :=
  let r := distance p1 p2
  (rayCircleIntersections ray.origin ray.direction ⟨p1, r⟩).findSome? fun hit =>
    let dSq := (hit.point.x - ray.origin.x) ^ 2 + (hit.point.y - ray.origin.y) ^ 2
    if dSq < MIN_RAY_LENGTH_SQ then none
    else some ⟨hit.point, hit.t, self, normalize (subtract hit.point p1)⟩

/-- CircleGlass.onRayIncident: Snell's law with Fresnel splitting; the side
is chosen by whether the ray origin lies inside the circle. -/
def circleGlassIncident (p1 p2 : Pt) (refIndex : ℝ) (ray : SimulationRay)
    (intersection : IntersectionResult) : RayInteractionResult :=
  let isInside := pointInCircle ray.origin ⟨p1, distance p1 p2⟩
  let n0 := intersection.normal
  let n := if isInside then Pt.mk (-n0.x) (-n0.y) else n0
  let n1 := if isInside then refIndex else 1
  let n2 := if isInside then 1 else refIndex
  match refract ray.direction n n1 n2 with
  | none =>
    { isAbsorbed := false
      outgoingRay := some
        { origin := intersection.point
          direction := normalize (reflect ray.direction n)
          brightnessS := ray.brightnessS
          brightnessP := ray.brightnessP
          gap := false
          isNew := false
          wavelength := ray.wavelength }
      newRays := []
      truncation := none }
  | some refractedDir =>
    let absCosI := |dot ray.direction n|
    let fr := fresnelReflectance absCosI n1 n2
    let outgoing : SimulationRay :=
      { origin := intersection.point
        direction := normalize refractedDir
        brightnessS := ray.brightnessS * (1 - fr.1)
        brightnessP := ray.brightnessP * (1 - fr.2)
        gap := false
        isNew := false
        wavelength := ray.wavelength }
    let reflBrightS := ray.brightnessS * fr.1
    let reflBrightP := ray.brightnessP * fr.2
    let newRays :=
      if reflBrightS + reflBrightP > FRESNEL_REFLECTION_THRESHOLD then
        [({ origin := intersection.point
            direction := normalize (reflect ray.direction n)
            brightnessS := reflBrightS
            brightnessP := reflBrightP
            gap := true
            isNew := false
            wavelength := ray.wavelength } : SimulationRay)]
      else []
    { isAbsorbed := false
      outgoingRay := some outgoing
      newRays := newRays
      truncation := none }

/-- Vertices of a PolygonGlass path (arc control points filtered out). -/
def polygonVertices (path : List PolygonVertex) : List Pt :=
  (path.filter fun v => !v.arc).map fun v => ⟨v.x, v.y⟩

/-- PolygonGlass.checkRayIntersection: nearest edge hit beyond the minimum
ray length, with that edge's segment normal (no flip toward the ray). -/
def polygonGlassCheck (self : Element) (path : List PolygonVertex) (ray : SimulationRay) :
    Option IntersectionResult :=
  let verts := polygonVertices path
  let n := verts.length
  (List.range n).foldl
    (fun best i =>
      let e : Seg := ⟨verts.getD i ⟨0, 0⟩, verts.getD ((i + 1) % n) ⟨0, 0⟩⟩
      match raySegmentIntersection ray.origin ray.direction e with
      | none => best
      | some hit =>
        let dSq := (hit.point.x - ray.origin.x) ^ 2 + (hit.point.y - ray.origin.y) ^ 2
        if dSq < MIN_RAY_LENGTH_SQ then best
        else
          match best with
          | none => some ⟨hit.point, hit.t, self, segmentNormal e⟩
          | some b =>
            if hit.t < b.t then some ⟨hit.point, hit.t, self, segmentNormal e⟩ else best)
    none

/-- PolygonGlass.onRayIncident: Snell's law with Fresnel splitting; the side
is chosen by point-in-polygon on the ray origin, and outside the glass the
normal is additionally flipped to face the ray. -/
def polygonGlassIncident (path : List PolygonVertex) (refIndex : ℝ) (ray : SimulationRay)
    (intersection : IntersectionResult) : RayInteractionResult :=
  let isInside := pointInPolygon ray.origin (polygonVertices path)
  let n0 := intersection.normal
  let n :=
    if isInside then Pt.mk (-n0.x) (-n0.y)
    else if dot ray.direction n0 > 0 then Pt.mk (-n0.x) (-n0.y) else n0
  let n1 := if isInside then refIndex else 1
  let n2 := if isInside then 1 else refIndex
  match refract ray.direction n n1 n2 with
  | none =>
    { isAbsorbed := false
      outgoingRay := some
        { origin := intersection.point
          direction := normalize (reflect ray.direction n)
          brightnessS := ray.brightnessS
          brightnessP := ray.brightnessP
          gap := false
          isNew := false
          wavelength := ray.wavelength }
      newRays := []
      truncation := none }
  | some refractedDir =>
    let absCosI := |dot ray.direction n|
    let fr := fresnelReflectance absCosI n1 n2
    let outgoing : SimulationRay :=
      { origin := intersection.point
        direction := normalize refractedDir
        brightnessS := ray.brightnessS * (1 - fr.1)
        brightnessP := ray.brightnessP * (1 - fr.2)
        gap := false
        isNew := false
        wavelength := ray.wavelength }
    let reflBrightS := ray.brightnessS * fr.1
    let reflBrightP := ray.brightnessP * fr.2
    let newRays :=
      if reflBrightS + reflBrightP > FRESNEL_REFLECTION_THRESHOLD then
        [({ origin := intersection.point
            direction := normalize (reflect ray.direction n)
            brightnessS := reflBrightS
            brightnessP := reflBrightP
            gap := true
            isNew := false
            wavelength := ray.wavelength } : SimulationRay)]
      else []
    { isAbsorbed := false
      outgoingRay := some outgoing
      newRays := newRays
      truncation := none }

/-- Math.sign of JavaScript. -/
def mathSign (x : ℝ) : ℝ := if 0 < x then 1 else if x < 0 then -1 else 0

/-- IdealLens.onRayIncident: deflect the lens-parallel slope by -h/f,
preserving the perpendicular component; degenerate or lens-parallel rays
pass through unaffected. -/
def idealLensIncident (p1 p2 : Pt) (focalLength : ℝ) (ray : SimulationRay)
    (intersection : IntersectionResult) : RayInteractionResult :=
  let center := segmentMidpoint ⟨p1, p2⟩
  let dx := p2.x - p1.x
  let dy := p2.y - p1.y
  let len := hypot dx dy
  if len < 1 / 10000000000 then
    { isAbsorbed := false
      outgoingRay := some { ray with origin := intersection.point, gap := false, isNew := false }
      newRays := []
      truncation := none }
  else
    let parX := dx / len
    let parY := dy / len
    let nrm := intersection.normal
    let perX := nrm.x
    let perY := nrm.y
    let rayDirPar := ray.direction.x * parX + ray.direction.y * parY
    let rayDirPer := ray.direction.x * perX + ray.direction.y * perY
    if |rayDirPer| < 1 / 1000000000000 then
      { isAbsorbed := false
        outgoingRay := some { ray with origin := intersection.point, gap := false, isNew := false }
        newRays := []
        truncation := none }
    else
      let ipX := intersection.point.x - center.x
      let ipY := intersection.point.y - center.y
      let h := ipX * parX + ipY * parY
      let slopeIn := rayDirPar / rayDirPer
      let slopeOut := slopeIn - h / focalLength
      let outDirPer := mathSign rayDirPer
      let outDirPar := slopeOut * outDirPer
      let outX := outDirPar * parX + outDirPer * perX
      let outY := outDirPar * parY + outDirPer * perY
      { isAbsorbed := false
        outgoingRay := some
          { origin := intersection.point
            direction := normalize ⟨outX, outY⟩
            brightnessS := ray.brightnessS
            brightnessP := ray.brightnessP
            gap := false
            isNew := false
            wavelength := ray.wavelength }
        newRays := []
        truncation := none }

/-- PointSourceElement.emitRays: rays at uniform angular steps over 2π.
The for loop `angle = startAngle; angle < 2π - 1e-5; angle += angularStep`
is modelled by its iteration count `⌈(bound - startAngle) / angularStep⌉₊`:
iteration k runs exactly when startAngle + k·angularStep < bound. -/
def pointSourceEmit (position : Pt) (brightness wavelength : ℝ)
    (rayDensity : ℝ) (mode : ViewMode) : List SimulationRay :=
  let angularStep := Real.pi * 2 / max 1 (⌊rayDensity * RAY_DENSITY_SCALE⌋ : ℝ)
  let startAngle : ℝ := if mode = .observer then -angularStep * 2 + 1 / 1000000 else 0
  let b := min (brightness / rayDensity) 1
  let bound := Real.pi * 2 - 1 / 100000
  let count := ⌈(bound - startAngle) / angularStep⌉₊
  (List.range count).map fun k : ℕ =>
    let angle := startAngle + (k : ℝ) * angularStep
    { origin := ⟨position.x, position.y⟩
      direction := ⟨Real.sin angle, Real.cos angle⟩
      brightnessS := b * POLARIZATION_SPLIT
      brightnessP := b * POLARIZATION_SPLIT
      gap := k = 0
      isNew := true
      wavelength := some wavelength }

/-- SingleRaySource.emitRays: exactly one ray from p1 toward p2, gap = true. -/
def singleRayEmit (p1 p2 : Pt) (brightness wavelength : ℝ) : List SimulationRay :=
  let dir := normalize (subtract p2 p1)
  [{ origin := ⟨p1.x, p1.y⟩
     direction := dir
     brightnessS := 1 / 2 * brightness
     brightnessP := 1 / 2 * brightness
     gap := true
     isNew := true
     wavelength := some wavelength }]

/-- The BaseElement default interaction: absorb. -/
def defaultIncident : RayInteractionResult :=
  { isAbsorbed := true, outgoingRay := none, newRays := [], truncation := none }

/-- emitRays dispatch over element kinds (BaseElement default: no rays). -/
def Element.emitRays : Element → ℝ → ViewMode → List SimulationRay
  | .pointSource _ pos b w, d, m => pointSourceEmit pos b w d m
  | .singleRaySource _ p1 p2 b w, _, _ => singleRayEmit p1 p2 b w
  | _, _, _ => []

/-- checkRayIntersection dispatch over element kinds (BaseElement default:
no intersection). -/
def Element.checkRayIntersection : Element → SimulationRay → Option IntersectionResult
  | e@(.segmentMirror _ p1 p2), ray => segmentMirrorCheck e p1 p2 ray
  | e@(.beamSplitter _ p1 p2 _), ray => segmentMirrorCheck e p1 p2 ray
  | e@(.halfPlaneGlass _ p1 p2 _), ray => halfPlaneGlassCheck e p1 p2 ray
  | e@(.circleGlass _ p1 p2 _), ray => circleGlassCheck e p1 p2 ray
  | e@(.polygonGlass _ path _), ray => polygonGlassCheck e path ray
  | e@(.idealLens _ p1 p2 _), ray => halfPlaneGlassCheck e p1 p2 ray
  | e@(.lineBlocker _ p1 p2), ray => segmentMirrorCheck e p1 p2 ray
  | .pointSource _ _ _ _, _ => none
  | .singleRaySource _ _ _ _ _, _ => none

/-- onRayIncident dispatch over element kinds (BaseElement default: absorb). -/
def Element.onRayIncident : Element → SimulationRay → IntersectionResult → RayInteractionResult
  | .segmentMirror _ _ _, ray, i => segmentMirrorIncident ray i
  | .beamSplitter _ _ _ tr, ray, i => beamSplitterIncident tr ray i
  | .halfPlaneGlass _ _ _ ri, ray, i => halfPlaneGlassIncident ri ray i
  | .circleGlass _ p1 p2 ri, ray, i => circleGlassIncident p1 p2 ri ray i
  | .polygonGlass _ path ri, ray, i => polygonGlassIncident path ri ray i
  | .idealLens _ p1 p2 f, ray, i => idealLensIncident p1 p2 f ray i
  | .lineBlocker _ _ _, _, _ => defaultIncident
  | .pointSource _ _ _ _, _, _ => defaultIncident
  | .singleRaySource _ _ _ _ _, _, _ => defaultIncident

/-- A traced ray segment for rendering (interface TracedSegment of RayTracer.ts). -/
structure TracedSegment where
  p1 : Pt
  p2 : Pt
  brightnessS : ℝ
  brightnessP : ℝ
  wavelength : Option ℝ
  isExtension : Bool
  isObserved : Bool

/-- Engine configuration (interface RayTracerConfig of RayTracer.ts). -/
structure RayTracerConfig where
  maxRayDepth : ℝ
  minBrightness : ℝ
  rayDensity : ℝ
  mode : ViewMode
  observer : Option Observer

/-- DEFAULT_CONFIG of RayTracer.ts. -/
def DEFAULT_CONFIG : RayTracerConfig :=
  { maxRayDepth := 200, minBrightness := 1 / 100, rayDensity := 1 / 10
    mode := .rays, observer := none }

/-- RayTracer.recordEscapedRay: a forward segment 10000 units long, plus a
backward extension in extended/images mode for non-gap rays. -/
def recordEscapedRay (cfg : RayTracerConfig) (ray : SimulationRay) : List TracedSegment :=
  let farPoint := addPt ray.origin (scale ray.direction 10000)
  let fwd : TracedSegment :=
    { p1 := ray.origin, p2 := farPoint, brightnessS := ray.brightnessS
      brightnessP := ray.brightnessP, wavelength := ray.wavelength
      isExtension := false, isObserved := false }
  if (cfg.mode = .extended ∨ cfg.mode = .images) ∧ ray.gap = false then
    let backPoint := addPt ray.origin (scale ray.direction (-10000))
    [fwd,
     { p1 := ray.origin, p2 := backPoint, brightnessS := ray.brightnessS
       brightnessP := ray.brightnessP, wavelength := ray.wavelength
       isExtension := true, isObserved := false }]
  else [fwd]

/-- RayTracer.processExtendedRay: backward extension from the ray origin for
non-gap rays. -/
def processExtendedRay (ray : SimulationRay) : List TracedSegment :=
  if ray.gap then []
  else
    let backPoint := addPt ray.origin (scale ray.direction (-10000))
    [{ p1 := ray.origin, p2 := backPoint, brightnessS := ray.brightnessS
       brightnessP := ray.brightnessP, wavelength := ray.wavelength
       isExtension := true, isObserved := false }]

/-- The visibility test of RayTracer.processObserverRay: the observer lies
within its radius of the ray's line, with non-negative projection, before
the hit. -/
def observerSees (observer : Observer) (ray : SimulationRay)
    (intersection : IntersectionResult) : Bool :=
  let rayLen := distanceSquared ray.origin intersection.point
  let toObserver := subtract observer.position ray.origin
  let projLen := toObserver.x * ray.direction.x + toObserver.y * ray.direction.y
  if projLen < 0 then false
  else
    let closest := addPt ray.origin (scale ray.direction projLen)
    let perpDist := distance closest observer.position
    decide (perpDist < observer.radius ∧ projLen * projLen < rayLen)

/-- RayTracer.findNearestIntersection: nearest hit across non-light-source
elements, ties broken by scene iteration order. -/
def findNearestIntersection (elements : List Element) (ray : SimulationRay) :
    Option IntersectionResult :=
  elements.foldl
    (fun nearest element =>
      if element.category = .lightSource then nearest
      else
        match element.checkRayIntersection ray with
        | none => nearest
        | some hit =>
          match nearest with
          | none => some hit
          | some nbest => if hit.t < nbest.t then some hit else nearest)
    none

/-- RayTracer.processRayEntry, with the mutation of the segment list and the
work queue made explicit: the result is the returned truncation together
with the appended segments and the enqueued (ray, depth) entries. -/
def processRayEntry (cfg : RayTracerConfig) (elements : List Element)
    (ray : SimulationRay) (depth : ℕ) :
    ℝ × List TracedSegment × List (SimulationRay × ℕ) :=
  if (depth : ℝ) ≥ cfg.maxRayDepth then (ray.brightnessS + ray.brightnessP, [], [])
  else
    let totalBrightness := ray.brightnessS + ray.brightnessP
    if totalBrightness < cfg.minBrightness then (totalBrightness, [], [])
    else
      match findNearestIntersection elements ray with
      | none => (0, recordEscapedRay cfg ray, [])
      | some intersection =>
        let sees :=
          match cfg.observer with
          | some observer =>
            decide (cfg.mode = .observer) && observerSees observer ray intersection
          | none => false
        let fwdSeg : TracedSegment :=
          { p1 := ray.origin, p2 := intersection.point
            brightnessS := ray.brightnessS, brightnessP := ray.brightnessP
            wavelength := ray.wavelength, isExtension := false, isObserved := sees }
        let extSegs :=
          if cfg.mode = .extended ∨ cfg.mode = .images then processExtendedRay ray else []
        let obsSegs :=
          if sees then
            [({ p1 := ray.origin
                p2 := addPt ray.origin (scale ray.direction (-10000))
                brightnessS := ray.brightnessS * (1 / 2)
                brightnessP := ray.brightnessP * (1 / 2)
                wavelength := ray.wavelength
                isExtension := true, isObserved := true } : TracedSegment)]
          else []
        let result := intersection.element.onRayIncident ray intersection
        let primary := if result.isAbsorbed then [] else result.outgoingRay.toList
        let enqueued := (primary ++ result.newRays).map fun r => (r, depth + 1)
        (result.truncation.getD 0, fwdSeg :: extSegs ++ obsSegs, enqueued)

/-- The FIFO work-queue loop of RayTracer.trace, as a fuel-indexed recursion.
The loop of the source always terminates (depth strictly increases and is
capped); the fuel only needs to be at least the number of processed
entries, and an empty queue returns regardless of the remaining fuel. -/
def runQueue (cfg : RayTracerConfig) (elements : List Element) :
    ℕ → List (SimulationRay × ℕ) → List TracedSegment → ℝ → List TracedSegment × ℝ
  | _, [], segments, truncation => (segments, truncation)
  | 0, _ :: _, segments, truncation => (segments, truncation)
  | fuel + 1, entry :: rest, segments, truncation =>
    let r := processRayEntry cfg elements entry.1 entry.2
    runQueue cfg elements fuel (rest ++ r.2.2) (segments ++ r.2.1) (truncation + r.1)

/-- A trace result (TraceResult of RayTracer.ts). -/
structure TraceResult where
  segments : List TracedSegment
  rays : List SimulationRay
  images : List DetectedImage
  truncationError : ℝ

/-- A ray record of RayTracer.detectImages pools. -/
structure ConvRay where
  origin : Pt
  direction : Pt
  brightness : ℝ

/-- The pool record built from a traced segment in RayTracer.detectImages. -/
def toConvRay (seg : TracedSegment) : ConvRay :=
  { origin := seg.p1
    direction := normalize (subtract seg.p2 seg.p1)
    brightness := seg.brightnessS + seg.brightnessP }

/-- CONVERGENCE_THRESHOLD of RayTracer.findConvergencePoints (grid size 5). -/
def CONVERGENCE_THRESHOLD : ℝ := 5

/-- JavaScript Math.round: round half toward positive infinity. -/
def jsRound (x : ℝ) : ℤ := ⌊x + 1 / 2⌋

/-- One inner-loop step of RayTracer.findConvergencePoints: skip near-parallel
pairs, intersect, quantize to the dedup grid, keep the first pair per cell. -/
def convStep (imageType : ImageType)
    (state : List (ℤ × ℤ) × List DetectedImage) (pr : ConvRay × ConvRay) :
    List (ℤ × ℤ) × List DetectedImage :=
  let r1 := pr.1
  let r2 := pr.2
  let denom := r1.direction.x * r2.direction.y - r1.direction.y * r2.direction.x
  if |denom| < 1 / 10000000000 then state
  else
    let dx := r2.origin.x - r1.origin.x
    let dy := r2.origin.y - r1.origin.y
    let t1 := (dx * r2.direction.y - dy * r2.direction.x) / denom
    let ix := r1.origin.x + r1.direction.x * t1
    let iy := r1.origin.y + r1.direction.y * t1
    let key := (jsRound (ix / CONVERGENCE_THRESHOLD), jsRound (iy / CONVERGENCE_THRESHOLD))
    if key ∈ state.1 then state
    else
      (key :: state.1,
       state.2 ++ [{ position := ⟨ix, iy⟩, imageType := imageType
                     brightness := (r1.brightness + r2.brightness) / 2 }])

/-- All ordered pairs (earlier, later) of a list, in the enumeration order of
the nested loops of RayTracer.findConvergencePoints. -/
def orderedPairs {α : Type} : List α → List (α × α)
  | [] => []
  | x :: xs => (xs.map fun y => (x, y)) ++ orderedPairs xs

/-- RayTracer.findConvergencePoints: both loop indices are capped at 500, the
dedup set starts fresh on every call. -/
def findConvergencePoints (rays : List ConvRay) (imageType : ImageType) :
    List DetectedImage :=
  ((orderedPairs (rays.take 500)).foldl (convStep imageType) ([], [])).2

/-- RayTracer.detectImages: split the segments into forward and backward
pools by isExtension and report convergences of the pools as real and
virtual images respectively. -/
def detectImages (segments : List TracedSegment) : List DetectedImage :=
  let forwardRays := (segments.filter fun s => !s.isExtension).map toConvRay
  let backwardRays := (segments.filter fun s => s.isExtension).map toConvRay
  findConvergencePoints forwardRays .real ++ findConvergencePoints backwardRays .virtual

/-- Fuel bound used to instantiate the work-queue loop: every queue entry
spawns at most two children and depth is capped, so the processed-entry
count is below this bound. -/
def traceFuel (cfg : RayTracerConfig) (n : ℕ) : ℕ :=
  (n + 1) * 2 ^ (⌈cfg.maxRayDepth⌉₊ + 1)

/-- RayTracer.trace: emit initial rays, drain the FIFO queue, then run image
detection in images mode. -/
def trace (elements : List Element) (cfg : RayTracerConfig) : TraceResult :=
  let initialRays := elements.flatMap fun e => e.emitRays cfg.rayDensity cfg.mode
  let st := runQueue cfg elements (traceFuel cfg initialRays.length)
    (initialRays.map fun r => (r, 0)) [] 0
  let images := if cfg.mode = .images then detectImages st.1 else []
  { segments := st.1, rays := initialRays, images := images, truncationError := st.2 }

/-- Scene settings (interface SceneSettings of OpticsScene.ts). -/
structure SceneSettings where
  mode : ViewMode
  rayDensity : ℝ
  maxRayDepth : ℝ
  showGrid : Bool
  snapToGrid : Bool
  gridSize : ℝ
  observer : Option Observer

/-- DEFAULT_SETTINGS of OpticsScene.ts. -/
def DEFAULT_SETTINGS : SceneSettings :=
  { mode := .rays, rayDensity := 1 / 10, maxRayDepth := 200
    showGrid := false, snapToGrid := false, gridSize := 20, observer := none }

/-- A Partial SceneSettings record for OpticsScene.updateSettings. -/
structure PartialSceneSettings where
  mode : Option ViewMode
  rayDensity : Option ℝ
  maxRayDepth : Option ℝ
  showGrid : Option Bool
  snapToGrid : Option Bool
  gridSize : Option ℝ
  observer : Option (Option Observer)

/-- Spread-merge of a Partial settings record over full settings. -/
def mergeSettings (s : SceneSettings) (p : PartialSceneSettings) : SceneSettings :=
  { mode := p.mode.getD s.mode
    rayDensity := p.rayDensity.getD s.rayDensity
    maxRayDepth := p.maxRayDepth.getD s.maxRayDepth
    showGrid := p.showGrid.getD s.showGrid
    snapToGrid := p.snapToGrid.getD s.snapToGrid
    gridSize := p.gridSize.getD s.gridSize
    observer := p.observer.getD s.observer }

/-- The scene aggregator state of OpticsScene.ts: element collection,
settings, and the cached trace result behind a dirty flag. -/
structure OpticsScene where
  elements : List Element
  settings : SceneSettings
  cachedResult : Option TraceResult
  dirty : Bool

/-- The OpticsScene constructor: no elements, merged settings, dirty cache. -/
def OpticsScene.init (settings : SceneSettings) : OpticsScene :=
  { elements := [], settings := settings, cachedResult := none, dirty := true }

/-- OpticsScene.invalidate: mark dirty and drop the cached result. -/
def OpticsScene.invalidate (s : OpticsScene) : OpticsScene :=
  { s with dirty := true, cachedResult := none }

/-- OpticsScene.addElement. -/
def OpticsScene.addElement (s : OpticsScene) (e : Element) : OpticsScene :=
  OpticsScene.invalidate { s with elements := s.elements ++ [e] }

/-- OpticsScene.removeElement: returns whether an element with the id was
found, and the updated scene (unchanged when not found). -/
def OpticsScene.removeElement (s : OpticsScene) (elementId : ℕ) : Bool × OpticsScene :=
  match s.elements.findIdx? (fun e => e.eid == elementId) with
  | none => (false, s)
  | some i => (true, OpticsScene.invalidate { s with elements := s.elements.eraseIdx i })

/-- OpticsScene.clearElements. -/
def OpticsScene.clearElements (s : OpticsScene) : OpticsScene :=
  OpticsScene.invalidate { s with elements := [] }

/-- OpticsScene.updateSettings. -/
def OpticsScene.updateSettings (s : OpticsScene) (p : PartialSceneSettings) : OpticsScene :=
  OpticsScene.invalidate { s with settings := mergeSettings s.settings p }

/-- OpticsScene.setMode. -/
def OpticsScene.setMode (s : OpticsScene) (mode : ViewMode) : OpticsScene :=
  OpticsScene.invalidate { s with settings := { s.settings with mode := mode } }

/-- OpticsScene.setRayDensity. -/
def OpticsScene.setRayDensity (s : OpticsScene) (density : ℝ) : OpticsScene :=
  OpticsScene.invalidate { s with settings := { s.settings with rayDensity := density } }

/-- OpticsScene.setObserver: also forces observer mode. -/
def OpticsScene.setObserver (s : OpticsScene) (position : Pt) (radius : ℝ) : OpticsScene :=
  let s1 := { s with settings := { s.settings with observer := some ⟨position, radius⟩ } }
  let s2 :=
    if s1.settings.mode ≠ .observer then
      { s1 with settings := { s1.settings with mode := .observer } }
    else s1
  OpticsScene.invalidate s2

/-- OpticsScene.clearObserver: reverts observer mode to rays mode. -/
def OpticsScene.clearObserver (s : OpticsScene) : OpticsScene :=
  let s1 := { s with settings := { s.settings with observer := none } }
  let s2 :=
    if s1.settings.mode = .observer then
      { s1 with settings := { s1.settings with mode := .rays } }
    else s1
  OpticsScene.invalidate s2

/-- OpticsScene.simulate: return the cached result when the scene is clean
and a cache is present, otherwise re-run the tracer and cache.  The third
component is a ghost flag recording whether the tracer was re-run. -/
def OpticsScene.simulate (s : OpticsScene) : TraceResult × OpticsScene × Bool :=
  match s.dirty, s.cachedResult with
  | false, some r => (r, s, false)
  | _, _ =>
    let cfg : RayTracerConfig :=
      { maxRayDepth := s.settings.maxRayDepth
        minBrightness := DEFAULT_CONFIG.minBrightness
        rayDensity := s.settings.rayDensity
        mode := s.settings.mode
        observer := s.settings.observer }
    let result := trace s.elements cfg
    (result, { s with cachedResult := some result, dirty := false }, true)

/-- Combined brightness of a ray (brightnessS + brightnessP). -/
def SimulationRay.combined (r : SimulationRay) : ℝ := r.brightnessS + r.brightnessP

/-- Both polarization brightnesses of a ray are non-negative. -/
def SimulationRay.nonnegBright (r : SimulationRay) : Prop :=
  0 ≤ r.brightnessS ∧ 0 ≤ r.brightnessP

/-- The rays leaving an interaction: the primary outgoing ray (when present)
together with all secondary rays. -/
def interactionRays (res : RayInteractionResult) : List SimulationRay :=
  res.outgoingRay.toList ++ res.newRays

/-- Summed combined brightness over the rays leaving an interaction. -/
def interactionTotal (res : RayInteractionResult) : ℝ :=
  ((interactionRays res).map SimulationRay.combined).sum

/-- Per-kind physical-parameter validity used by the brightness claims:
non-negative source brightness, positive refractive indices, beam-splitter
transmission fraction in [0,1]. -/
def Element.valid : Element → Prop
  | .segmentMirror _ _ _ => True
  | .beamSplitter _ _ _ tr => 0 ≤ tr ∧ tr ≤ 1
  | .halfPlaneGlass _ _ _ ri => 0 < ri
  | .circleGlass _ _ _ ri => 0 < ri
  | .polygonGlass _ _ ri => 0 < ri
  | .idealLens _ _ _ _ => True
  | .lineBlocker _ _ _ => True
  | .pointSource _ _ b _ => 0 ≤ b
  | .singleRaySource _ _ _ b _ => 0 ≤ b

/-- The shared refraction algorithm of the Snell's-law glass kinds, written
once over the already-selected effective normal and index pair: refract, on
total internal reflection emit one full-brightness reflected ray, otherwise
emit the refracted ray carrying (1-R) of each polarization and spawn the
reflected remainder only above the fixed brightness threshold. -/
def glassFresnelInteraction (ray : SimulationRay) (hitPoint n : Pt) (n1 n2 : ℝ) :
    RayInteractionResult :=
  match refract ray.direction n n1 n2 with
  | none =>
    { isAbsorbed := false
      outgoingRay := some
        { origin := hitPoint
          direction := normalize (reflect ray.direction n)
          brightnessS := ray.brightnessS
          brightnessP := ray.brightnessP
          gap := false
          isNew := false
          wavelength := ray.wavelength }
      newRays := []
      truncation := none }
  | some refractedDir =>
    let absCosI := |dot ray.direction n|
    let fr := fresnelReflectance absCosI n1 n2
    let outgoing : SimulationRay :=
      { origin := hitPoint
        direction := normalize refractedDir
        brightnessS := ray.brightnessS * (1 - fr.1)
        brightnessP := ray.brightnessP * (1 - fr.2)
        gap := false
        isNew := false
        wavelength := ray.wavelength }
    let reflBrightS := ray.brightnessS * fr.1
    let reflBrightP := ray.brightnessP * fr.2
    let newRays :=
      if reflBrightS + reflBrightP > FRESNEL_REFLECTION_THRESHOLD then
        [({ origin := hitPoint
            direction := normalize (reflect ray.direction n)
            brightnessS := reflBrightS
            brightnessP := reflBrightP
            gap := true
            isNew := false
            wavelength := ray.wavelength } : SimulationRay)]
      else []
    { isAbsorbed := false
      outgoingRay := some outgoing
      newRays := newRays
      truncation := none }

/-- Effective (normal, n1, n2) selected by HalfPlaneGlass.onRayIncident from
the side the ray comes from. -/
def hpgEffective (refIndex : ℝ) (ray : SimulationRay) (i : IntersectionResult) :
    Pt × ℝ × ℝ :=
  if 0 < -(dot ray.direction i.normal) then (i.normal, 1, refIndex)
  else (⟨-i.normal.x, -i.normal.y⟩, refIndex, 1)

/-- Effective (normal, n1, n2) selected by CircleGlass.onRayIncident from
whether the ray origin is inside the circle. -/
def circleEffective (p1 p2 : Pt) (refIndex : ℝ) (ray : SimulationRay)
    (i : IntersectionResult) : Pt × ℝ × ℝ :=
  if pointInCircle ray.origin ⟨p1, distance p1 p2⟩ then
    (⟨-i.normal.x, -i.normal.y⟩, refIndex, 1)
  else (i.normal, 1, refIndex)

/-- Effective (normal, n1, n2) selected by PolygonGlass.onRayIncident from
point-in-polygon on the ray origin (outside, the normal is additionally
flipped to face the ray). -/
def polyEffective (path : List PolygonVertex) (refIndex : ℝ) (ray : SimulationRay)
    (i : IntersectionResult) : Pt × ℝ × ℝ :=
  if pointInPolygon ray.origin (polygonVertices path) then
    (⟨-i.normal.x, -i.normal.y⟩, refIndex, 1)
  else if dot ray.direction i.normal > 0 then (⟨-i.normal.x, -i.normal.y⟩, 1, refIndex)
  else (i.normal, 1, refIndex)

/-- One pair step of image detection as the spec words it: skip a
near-parallel direction pair (cross product magnitude below 1e-10), solve
the 2-line intersection, quantize the point to the grid of size 5 as a
dedup key, keep only the first pair per grid cell, report brightness as the
mean of the pair's combined brightness. -/
def specConvStep (imageType : ImageType)
    (state : List (ℤ × ℤ) × List DetectedImage) (pr : ConvRay × ConvRay) :
    List (ℤ × ℤ) × List DetectedImage :=
  let d1 := pr.1.direction
  let d2 := pr.2.direction
  if |cross d1 d2| < 1 / 10000000000 then state
  else
    let diff := subtract pr.2.origin pr.1.origin
    let t1 := cross diff d2 / cross d1 d2
    let p := addPt pr.1.origin (scale d1 t1)
    let cell := (jsRound (p.x / CONVERGENCE_THRESHOLD), jsRound (p.y / CONVERGENCE_THRESHOLD))
    if cell ∈ state.1 then state
    else
      (cell :: state.1,
       state.2 ++ [{ position := p, imageType := imageType
                     brightness := (pr.1.brightness + pr.2.brightness) / 2 }])

/-- Image detection as the spec words it: partition the segments by
isExtension into a forward pool and a backward pool, process each pool
independently over every pair i < j with both indices below 500, and label
forward-pool convergences real and backward-pool convergences virtual. -/
def detectImagesSpec (segments : List TracedSegment) : List DetectedImage :=
  let pools := segments.partition fun s => !s.isExtension
  let forwardPool := pools.1.map toConvRay
  let backwardPool := pools.2.map toConvRay
  ((orderedPairs (forwardPool.take 500)).foldl (specConvStep .real) ([], [])).2 ++
    ((orderedPairs (backwardPool.take 500)).foldl (specConvStep .virtual) ([], [])).2

end

section Lemmas

open Real

/-- hypot is the square root of the sum of squares, hence non-negative. -/
theorem hypot_nonneg (x y : ℝ) : 0 ≤ hypot x y := Real.sqrt_nonneg _

/-- hypot squared recovers the sum of squares. -/
theorem hypot_mul_self (x y : ℝ) : hypot x y * hypot x y = x * x + y * y :=
  Real.mul_self_sqrt (add_nonneg (mul_self_nonneg x) (mul_self_nonneg y))

/-- hypot vanishes exactly on the zero vector. -/
theorem hypot_eq_zero_iff {x y : ℝ} : hypot x y = 0 ↔ x = 0 ∧ y = 0 := by
  unfold hypot
  rw [Real.sqrt_eq_zero']
  constructor
  · intro h
    constructor <;> nlinarith
  · rintro ⟨rfl, rfl⟩
    norm_num

/-- A vector with unit square norm is fixed by normalize. -/
theorem normalize_of_sq_one {p : Pt} (h : p.x * p.x + p.y * p.y = 1) :
    normalize p = p := by
  unfold normalize hypot
  rw [h]
  simp

/-- normalize of a non-zero vector has unit square norm. -/
theorem normalize_sq_one {p : Pt} (h : ¬(p.x = 0 ∧ p.y = 0)) :
    (normalize p).x * (normalize p).x + (normalize p).y * (normalize p).y = 1 := by
  have hlen : hypot p.x p.y ≠ 0 := fun h0 => h (hypot_eq_zero_iff.mp h0)
  unfold normalize
  rw [if_neg hlen]
  have hsq := hypot_mul_self p.x p.y
  field_simp
  linarith [hsq]

/-- C6: raySegmentIntersection returns a hit exactly when the solution (t, u)
of the 2×2 linear system satisfies t > 1e-6 and u ∈ [0,1], returning the
point origin + t·direction; when the denominator's absolute value is below
1e-12 (ray parallel to the segment) it returns no hit. -/
theorem raySegmentIntersection_characterization (o d : Pt) (seg : Seg) :
    (|d.x * (seg.p2.y - seg.p1.y) - d.y * (seg.p2.x - seg.p1.x)| < PARALLEL_EPS →
      raySegmentIntersection o d seg = none) ∧
    (PARALLEL_EPS ≤ |d.x * (seg.p2.y - seg.p1.y) - d.y * (seg.p2.x - seg.p1.x)| →
      ∀ t u : ℝ,
        o.x + t * d.x = seg.p1.x + u * (seg.p2.x - seg.p1.x) →
        o.y + t * d.y = seg.p1.y + u * (seg.p2.y - seg.p1.y) →
        (raySegmentIntersection o d seg =
            some ⟨t, ⟨o.x + d.x * t, o.y + d.y * t⟩⟩ ↔
          T_EPS < t ∧ 0 ≤ u ∧ u ≤ 1)) := by
  refine ⟨fun h => ?_, fun h t u h1 h2 => ?_⟩
  · simp only [raySegmentIntersection]
    rw [if_pos h]
  · have hdenom : d.x * (seg.p2.y - seg.p1.y) - d.y * (seg.p2.x - seg.p1.x) ≠ 0 := by
      intro h0
      rw [h0, abs_zero] at h
      norm_num [PARALLEL_EPS] at h
    have hnlt : ¬(|d.x * (seg.p2.y - seg.p1.y) - d.y * (seg.p2.x - seg.p1.x)| < PARALLEL_EPS) :=
      not_lt.mpr h
    have ht : ((seg.p1.x - o.x) * (seg.p2.y - seg.p1.y) -
        (seg.p1.y - o.y) * (seg.p2.x - seg.p1.x)) /
        (d.x * (seg.p2.y - seg.p1.y) - d.y * (seg.p2.x - seg.p1.x)) = t := by
      rw [div_eq_iff hdenom]
      linear_combination (-(seg.p2.y - seg.p1.y)) * h1 + (seg.p2.x - seg.p1.x) * h2
    have hu : ((seg.p1.x - o.x) * d.y - (seg.p1.y - o.y) * d.x) /
        (d.x * (seg.p2.y - seg.p1.y) - d.y * (seg.p2.x - seg.p1.x)) = u := by
      rw [div_eq_iff hdenom]
      linear_combination (-d.y) * h1 + d.x * h2
    simp only [raySegmentIntersection]
    rw [if_neg hnlt, ht, hu]
    split_ifs with hc
    · simp [hc]
    · simp [hc]


/-- Witness for C6: a vertical ray through the segment (-1,2)–(1,2) hits at
(0,2) with ray parameter 2. -/
theorem raySegmentIntersection_characterization_witness :
    raySegmentIntersection ⟨0, 0⟩ ⟨0, 1⟩ ⟨⟨-1, 2⟩, ⟨1, 2⟩⟩ =
      some ⟨2, ⟨0 + 0 * 2, 0 + 1 * 2⟩⟩ :=
  ((raySegmentIntersection_characterization ⟨0, 0⟩ ⟨0, 1⟩ ⟨⟨-1, 2⟩, ⟨1, 2⟩⟩).2
    (by norm_num [PARALLEL_EPS]) 2 (1 / 2) (by norm_num) (by norm_num)).mpr
    (by norm_num [T_EPS])

/-- C3: when the popped entry's depth has reached maxRayDepth the engine adds
the ray's full combined brightness to the truncation error, records no
segment and enqueues nothing; otherwise, when the combined brightness is
below minBrightness, it adds exactly that combined brightness, records no
segment and enqueues nothing. -/
theorem processRayEntry_truncation_guards (cfg : RayTracerConfig)
    (elements : List Element) (ray : SimulationRay) (depth : ℕ) :
    ((depth : ℝ) ≥ cfg.maxRayDepth →
      processRayEntry cfg elements ray depth =
        (ray.brightnessS + ray.brightnessP, [], [])) ∧
    ((depth : ℝ) < cfg.maxRayDepth →
      ray.brightnessS + ray.brightnessP < cfg.minBrightness →
      processRayEntry cfg elements ray depth =
        (ray.brightnessS + ray.brightnessP, [], [])) := by
  constructor
  · intro h
    unfold processRayEntry
    rw [if_pos h]
  · intro h1 h2
    unfold processRayEntry
    rw [if_neg (not_le.mpr h1), if_pos h2]

/-- Witness for C3: a depth-capped ray is truncated whole; a dim ray below
the default floor is truncated by its combined brightness. -/
theorem processRayEntry_truncation_guards_witness :
    processRayEntry ⟨0, 1 / 100, 1 / 10, .rays, none⟩ []
        ⟨⟨0, 0⟩, ⟨0, 1⟩, 1, 1, false, true, none⟩ 0 = (1 + 1, [], []) ∧
    processRayEntry ⟨200, 1 / 100, 1 / 10, .rays, none⟩ []
        ⟨⟨0, 0⟩, ⟨0, 1⟩, 1 / 500, 1 / 500, false, true, none⟩ 0 =
      (1 / 500 + 1 / 500, [], []) :=
  ⟨(processRayEntry_truncation_guards ⟨0, 1 / 100, 1 / 10, .rays, none⟩ []
      ⟨⟨0, 0⟩, ⟨0, 1⟩, 1, 1, false, true, none⟩ 0).1 (by norm_num),
   (processRayEntry_truncation_guards ⟨200, 1 / 100, 1 / 10, .rays, none⟩ []
      ⟨⟨0, 0⟩, ⟨0, 1⟩, 1 / 500, 1 / 500, false, true, none⟩ 0).2
      (by norm_num) (by norm_num)⟩

attribute [ext] Pt

/-- Reflecting a unit vector about a unit normal yields a unit vector. -/
theorem reflect_sq_one {d n : Pt} (hd : d.x * d.x + d.y * d.y = 1)
    (hn : n.x * n.x + n.y * n.y = 1) :
    (reflect d n).x * (reflect d n).x + (reflect d n).y * (reflect d n).y = 1 := by
  show (d.x - 2 * (d.x * n.x + d.y * n.y) * n.x) * (d.x - 2 * (d.x * n.x + d.y * n.y) * n.x) +
      (d.y - 2 * (d.x * n.x + d.y * n.y) * n.y) * (d.y - 2 * (d.x * n.x + d.y * n.y) * n.y) = 1
  linear_combination hd + (4 * (d.x * n.x + d.y * n.y) ^ 2) * hn

/-- Normalizing the back-scaled copy of a unit vector recovers its negation. -/
theorem normalize_neg_mul {d : Pt} {t : ℝ} (ht : 0 < t)
    (hd : d.x * d.x + d.y * d.y = 1) :
    normalize ⟨-(d.x * t), -(d.y * t)⟩ = ⟨-d.x, -d.y⟩ := by
  have hlen : hypot (-(d.x * t)) (-(d.y * t)) = t := by
    unfold hypot
    rw [show -(d.x * t) * -(d.x * t) + -(d.y * t) * -(d.y * t) = t ^ 2 by
      linear_combination t ^ 2 * hd]
    exact Real.sqrt_sq ht.le
  have ht' : t ≠ 0 := ne_of_gt ht
  unfold normalize
  simp only [hlen]
  rw [if_neg ht']
  ext
  · field_simp
  · field_simp

/-- Inversion of a successful raySegmentIntersection: the parameter exceeds
the epsilon, the hit point lies on the ray, and the configuration is not
parallel. -/
theorem raySegmentIntersection_some {o d p1 p2 : Pt} {h0 : RayHit}
    (h : raySegmentIntersection o d ⟨p1, p2⟩ = some h0) :
    T_EPS < h0.t ∧ h0.point = ⟨o.x + d.x * h0.t, o.y + d.y * h0.t⟩ ∧
    PARALLEL_EPS ≤ |d.x * (p2.y - p1.y) - d.y * (p2.x - p1.x)| := by
  simp only [raySegmentIntersection] at h
  split_ifs at h with h1 h2
  injection h with h
  subst h
  exact ⟨h2.1, rfl, not_lt.mp h1⟩

/-- The component reflection formula of SegmentMirror.onRayIncident, negated,
agrees with reflect for a unit normal. -/
theorem mirror_component_reflect (d m : Pt) (hm : m.x * m.x + m.y * m.y = 1) :
    (⟨-(-d.x * (m.y * m.y - m.x * m.x) - 2 * -d.y * m.x * m.y),
      -(-d.y * (m.x * m.x - m.y * m.y) - 2 * -d.x * m.x * m.y)⟩ : Pt) =
      reflect d m := by
  ext
  · show -(-d.x * (m.y * m.y - m.x * m.x) - 2 * -d.y * m.x * m.y) =
      d.x - 2 * (d.x * m.x + d.y * m.y) * m.x
    linear_combination d.x * hm
  · show -(-d.y * (m.x * m.x - m.y * m.y) - 2 * -d.x * m.x * m.y) =
      d.y - 2 * (d.x * m.x + d.y * m.y) * m.y
    linear_combination d.y * hm

/-- C5: for every SegmentMirror hit with unit incident direction d and
returned unit normal n, the outgoing direction of onRayIncident equals
d - 2·dot(d,n)·n (reflect), the same angle on the opposite side of the
mirror normal. -/
theorem segmentMirror_law_of_reflection (i : ℕ) (p1 p2 : Pt) (ray : SimulationRay)
    (hit : IntersectionResult)
    (hcheck : Element.checkRayIntersection (.segmentMirror i p1 p2) ray = some hit)
    (hunit : ray.direction.x * ray.direction.x + ray.direction.y * ray.direction.y = 1) :
    (Element.onRayIncident (.segmentMirror i p1 p2) ray hit).outgoingRay.map
        (fun r => r.direction) = some (reflect ray.direction hit.normal) := by
  simp only [Element.checkRayIntersection, segmentMirrorCheck] at hcheck
  cases hrsi : raySegmentIntersection ray.origin ray.direction ⟨p1, p2⟩ with
  | none => rw [hrsi] at hcheck; exact Option.noConfusion hcheck
  | some h0 =>
    rw [hrsi] at hcheck
    simp only [Option.some.injEq] at hcheck
    obtain ⟨htEps, hpt, hpar⟩ := raySegmentIntersection_some hrsi
    have ht0 : 0 < h0.t := lt_trans (by norm_num [T_EPS]) htEps
    have hv : ¬((⟨p2.y - p1.y, -(p2.x - p1.x)⟩ : Pt).x = 0 ∧
        (⟨p2.y - p1.y, -(p2.x - p1.x)⟩ : Pt).y = 0) := by
      rintro ⟨hx, hy⟩
      simp only at hx hy
      have hxx : p2.x - p1.x = 0 := by linarith
      rw [hx, hxx] at hpar
      norm_num [PARALLEL_EPS] at hpar
    have hn_unit := normalize_sq_one hv
    subst hcheck
    set nrm := segmentNormal ⟨p1, p2⟩ with hnrm
    have hnrm_unit : nrm.x * nrm.x + nrm.y * nrm.y = 1 := hn_unit
    simp only [Element.onRayIncident, segmentMirrorIncident, Option.map_some']
    rw [hpt]
    have hsub : subtract ray.origin
        ⟨ray.origin.x + ray.direction.x * h0.t, ray.origin.y + ray.direction.y * h0.t⟩ =
        ⟨-(ray.direction.x * h0.t), -(ray.direction.y * h0.t)⟩ := by
      unfold subtract
      ext <;> (simp only; ring)
    rw [hsub, normalize_neg_mul ht0 hunit]
    set m := if dot nrm ray.direction < 0 then nrm else (⟨-nrm.x, -nrm.y⟩ : Pt) with hm
    have hm_unit : m.x * m.x + m.y * m.y = 1 := by
      rw [hm]
      by_cases hside : dot nrm ray.direction < 0
      · rw [if_pos hside]; exact hnrm_unit
      · rw [if_neg hside]
        show -nrm.x * -nrm.x + -nrm.y * -nrm.y = 1
        linear_combination hnrm_unit
    simp only
    rw [mirror_component_reflect ray.direction m hm_unit,
      normalize_of_sq_one (reflect_sq_one hunit hm_unit)]

/-- Witness for C5: the ray (0,0)→(0,1) hits the mirror (-10,10)–(10,10) at
(0,10) and reflects straight back. -/
theorem segmentMirror_law_of_reflection_witness :
    (Element.onRayIncident (.segmentMirror 7 ⟨-10, 10⟩ ⟨10, 10⟩)
        ⟨⟨0, 0⟩, ⟨0, 1⟩, 1 / 2, 1 / 2, false, true, none⟩
        ⟨⟨0, 10⟩, 10, .segmentMirror 7 ⟨-10, 10⟩ ⟨10, 10⟩, ⟨0, -1⟩⟩).outgoingRay.map
        (fun r => r.direction) =
      some (reflect ⟨0, 1⟩ ⟨0, -1⟩) := by
  have h400 : Real.sqrt 400 = 20 := by
    rw [show (400 : ℝ) = 20 ^ 2 by norm_num]
    exact Real.sqrt_sq (by norm_num)
  exact segmentMirror_law_of_reflection 7 ⟨-10, 10⟩ ⟨10, 10⟩
    ⟨⟨0, 0⟩, ⟨0, 1⟩, 1 / 2, 1 / 2, false, true, none⟩
    ⟨⟨0, 10⟩, 10, .segmentMirror 7 ⟨-10, 10⟩ ⟨10, 10⟩, ⟨0, -1⟩⟩
    (by
      simp only [Element.checkRayIntersection, segmentMirrorCheck, raySegmentIntersection,
        segmentNormal, normalize, hypot, dot, T_EPS, PARALLEL_EPS]
      norm_num [h400])
    (by norm_num)

/-- dot with a normalized left argument divides by the vector length (with
the division-by-zero convention matching normalize's zero case). -/
theorem dot_normalize_left (v d : Pt) :
    dot (normalize v) d = dot v d / hypot v.x v.y := by
  unfold normalize dot
  by_cases h : hypot v.x v.y = 0
  · simp only [h, if_pos rfl]
    simp [div_zero, h]
  · simp only [if_neg h]
    field_simp

/-- The flipped segment normal of segmentMirrorCheck always faces against
the incoming ray. -/
theorem segmentMirrorCheck_normal_neg (self : Element) (p1 p2 : Pt)
    (ray : SimulationRay) (hit : IntersectionResult)
    (h : segmentMirrorCheck self p1 p2 ray = some hit) :
    dot hit.normal ray.direction < 0 := by
  unfold segmentMirrorCheck at h
  cases hrsi : raySegmentIntersection ray.origin ray.direction ⟨p1, p2⟩ with
  | none => rw [hrsi] at h; exact Option.noConfusion h
  | some h0 =>
    rw [hrsi] at h
    simp only [Option.some.injEq] at h
    obtain ⟨htEps, hpt, hpar⟩ := raySegmentIntersection_some hrsi
    have hdenom_ne : ray.direction.x * (p2.y - p1.y) - ray.direction.y * (p2.x - p1.x) ≠ 0 := by
      intro h0'
      rw [h0', abs_zero] at hpar
      norm_num [PARALLEL_EPS] at hpar
    have hv : ¬((⟨p2.y - p1.y, -(p2.x - p1.x)⟩ : Pt).x = 0 ∧
        (⟨p2.y - p1.y, -(p2.x - p1.x)⟩ : Pt).y = 0) := by
      rintro ⟨hx, hy⟩
      simp only at hx hy
      have hxx : p2.x - p1.x = 0 := by linarith
      rw [hx, hxx] at hdenom_ne
      exact hdenom_ne (by ring)
    have hlen_ne : hypot (p2.y - p1.y) (-(p2.x - p1.x)) ≠ 0 := by
      intro h0'
      exact hv (hypot_eq_zero_iff.mp h0')
    have hlen_pos : 0 < hypot (p2.y - p1.y) (-(p2.x - p1.x)) :=
      lt_of_le_of_ne (hypot_nonneg _ _) (Ne.symm hlen_ne)
    have hdotv : dot (⟨p2.y - p1.y, -(p2.x - p1.x)⟩ : Pt) ray.direction =
        ray.direction.x * (p2.y - p1.y) - ray.direction.y * (p2.x - p1.x) := by
      unfold dot
      simp only
      ring
    have hdotn : dot (segmentNormal ⟨p1, p2⟩) ray.direction =
        (ray.direction.x * (p2.y - p1.y) - ray.direction.y * (p2.x - p1.x)) /
          hypot (p2.y - p1.y) (-(p2.x - p1.x)) := by
      unfold segmentNormal
      rw [dot_normalize_left, hdotv]
    have hdotn_ne : dot (segmentNormal ⟨p1, p2⟩) ray.direction ≠ 0 := by
      rw [hdotn]
      exact div_ne_zero hdenom_ne hlen_ne
    subst h
    by_cases hside : dot (segmentNormal ⟨p1, p2⟩) ray.direction < 0
    · simp only [if_pos hside]
      exact hside
    · simp only [if_neg hside]
      have hpos : 0 < dot (segmentNormal ⟨p1, p2⟩) ray.direction :=
        lt_of_le_of_ne (not_lt.mp hside) (Ne.symm hdotn_ne)
      have : dot (⟨-(segmentNormal ⟨p1, p2⟩).x, -(segmentNormal ⟨p1, p2⟩).y⟩ : Pt)
          ray.direction = -(dot (segmentNormal ⟨p1, p2⟩) ray.direction) := by
        unfold dot
        simp only
        ring
      rw [this]
      linarith

/-- Counterexample to C1 as stated: a unit ray leaving the glass side of a
HalfPlaneGlass receives the fixed segment normal, whose dot product with the
ray direction is 1, not negative. -/
theorem checkRayIntersection_normal_cex :
    ((⟨⟨0, 1⟩, ⟨0, -1⟩, 1 / 2, 1 / 2, false, true, none⟩ : SimulationRay).direction.x *
        (⟨⟨0, 1⟩, ⟨0, -1⟩, 1 / 2, 1 / 2, false, true, none⟩ : SimulationRay).direction.x +
      (⟨⟨0, 1⟩, ⟨0, -1⟩, 1 / 2, 1 / 2, false, true, none⟩ : SimulationRay).direction.y *
        (⟨⟨0, 1⟩, ⟨0, -1⟩, 1 / 2, 1 / 2, false, true, none⟩ : SimulationRay).direction.y = 1) ∧
    Element.checkRayIntersection (.halfPlaneGlass 3 ⟨0, 0⟩ ⟨1, 0⟩ (3 / 2))
        ⟨⟨0, 1⟩, ⟨0, -1⟩, 1 / 2, 1 / 2, false, true, none⟩ =
      some ⟨⟨0, 0⟩, 1, .halfPlaneGlass 3 ⟨0, 0⟩ ⟨1, 0⟩ (3 / 2), ⟨0, -1⟩⟩ ∧
    ¬(dot (⟨0, -1⟩ : Pt) (⟨0, -1⟩ : Pt) < 0) := by
  refine ⟨by norm_num, ?_, by norm_num [dot]⟩
  simp only [Element.checkRayIntersection, halfPlaneGlassCheck, raySegmentIntersection,
    segmentNormal, normalize, hypot, T_EPS, PARALLEL_EPS]
  norm_num [Real.sqrt_one]

/-- C1 amended: the mirror and blocker kinds sharing the flipped-normal
intersection test (SegmentMirror, BeamSplitterElement, LineBlocker) always
return a normal oriented against the incoming ray; the glass kinds
(HalfPlaneGlass, CircleGlass, IdealLens) return a fixed outward normal that
can point along the ray (see the counterexample). -/
theorem checkRayIntersection_normal_faces_ray_amended (e : Element)
    (ray : SimulationRay) (hit : IntersectionResult)
    (hkind : (∃ i p1 p2, e = .segmentMirror i p1 p2) ∨
      (∃ i p1 p2 tr, e = .beamSplitter i p1 p2 tr) ∨
      (∃ i p1 p2, e = .lineBlocker i p1 p2))
    (hcheck : e.checkRayIntersection ray = some hit) :
    dot hit.normal ray.direction < 0 := by
  rcases hkind with ⟨i, p1, p2, rfl⟩ | ⟨i, p1, p2, tr, rfl⟩ | ⟨i, p1, p2, rfl⟩ <;>
    exact segmentMirrorCheck_normal_neg _ p1 p2 ray hit hcheck

/-- Witness for the amended C1: a concrete mirror hit whose returned normal
has negative dot product with the ray direction. -/
theorem checkRayIntersection_normal_faces_ray_amended_witness :
    dot (IntersectionResult.normal
        ⟨⟨0, 10⟩, 10, .segmentMirror 9 ⟨-10, 10⟩ ⟨10, 10⟩, ⟨0, -1⟩⟩)
      (⟨⟨0, 0⟩, ⟨0, 1⟩, 1 / 2, 1 / 2, false, true, none⟩ : SimulationRay).direction < 0 := by
  have h400 : Real.sqrt 400 = 20 := by
    rw [show (400 : ℝ) = 20 ^ 2 by norm_num]
    exact Real.sqrt_sq (by norm_num)
  exact checkRayIntersection_normal_faces_ray_amended
    (.segmentMirror 9 ⟨-10, 10⟩ ⟨10, 10⟩)
    ⟨⟨0, 0⟩, ⟨0, 1⟩, 1 / 2, 1 / 2, false, true, none⟩
    ⟨⟨0, 10⟩, 10, .segmentMirror 9 ⟨-10, 10⟩ ⟨10, 10⟩, ⟨0, -1⟩⟩
    (Or.inl ⟨9, ⟨-10, 10⟩, ⟨10, 10⟩, rfl⟩)
    (by
      simp only [Element.checkRayIntersection, segmentMirrorCheck, raySegmentIntersection,
        segmentNormal, normalize, hypot, dot, T_EPS, PARALLEL_EPS]
      norm_num [h400])

/-- HalfPlaneGlass.onRayIncident factors through the shared Fresnel
interaction with its cosine-selected side. -/
theorem halfPlaneGlassIncident_eq (ri : ℝ) (ray : SimulationRay) (i : IntersectionResult) :
    halfPlaneGlassIncident ri ray i =
      glassFresnelInteraction ray i.point (hpgEffective ri ray i).1
        (hpgEffective ri ray i).2.1 (hpgEffective ri ray i).2.2 := by
  unfold halfPlaneGlassIncident glassFresnelInteraction hpgEffective
  by_cases h : 0 < -(dot ray.direction i.normal) <;> simp only [if_pos, if_neg, h, ite_true,
    ite_false, if_true, if_false]

/-- CircleGlass.onRayIncident factors through the shared Fresnel interaction
with its inside-circle-selected side. -/
theorem circleGlassIncident_eq (p1 p2 : Pt) (ri : ℝ) (ray : SimulationRay)
    (i : IntersectionResult) :
    circleGlassIncident p1 p2 ri ray i =
      glassFresnelInteraction ray i.point (circleEffective p1 p2 ri ray i).1
        (circleEffective p1 p2 ri ray i).2.1 (circleEffective p1 p2 ri ray i).2.2 := by
  unfold circleGlassIncident glassFresnelInteraction circleEffective
  cases hin : pointInCircle ray.origin ⟨p1, distance p1 p2⟩ <;> simp only [hin, ite_true,
    ite_false, Bool.false_eq_true, if_true, if_false]

/-- PolygonGlass.onRayIncident factors through the shared Fresnel interaction
with its point-in-polygon-selected side. -/
theorem polygonGlassIncident_eq (path : List PolygonVertex) (ri : ℝ) (ray : SimulationRay)
    (i : IntersectionResult) :
    polygonGlassIncident path ri ray i =
      glassFresnelInteraction ray i.point (polyEffective path ri ray i).1
        (polyEffective path ri ray i).2.1 (polyEffective path ri ray i).2.2 := by
  unfold polygonGlassIncident glassFresnelInteraction polyEffective
  cases hin : pointInPolygon ray.origin (polygonVertices path)
  · by_cases hdot : dot ray.direction i.normal > 0 <;> simp only [hin, hdot, ite_true,
      ite_false, Bool.false_eq_true, if_true, if_false]
  · simp only [hin, ite_true, ite_false, if_true, if_false]

/-- C4: every Snell's-law glass kind factors through the shared refraction
algorithm, which on total internal reflection emits one full-brightness
reflected ray, and otherwise emits the refracted ray carrying (1-Rs)/(1-Rp)
of the polarization brightnesses as primary, spawning the reflected
remainder exactly when Rs·brightnessS + Rp·brightnessP exceeds the fixed
threshold 0.01. -/
theorem glassKinds_shared_fresnel :
    (∀ (ri : ℝ) (ray : SimulationRay) (i : IntersectionResult),
      halfPlaneGlassIncident ri ray i =
        glassFresnelInteraction ray i.point (hpgEffective ri ray i).1
          (hpgEffective ri ray i).2.1 (hpgEffective ri ray i).2.2) ∧
    (∀ (p1 p2 : Pt) (ri : ℝ) (ray : SimulationRay) (i : IntersectionResult),
      circleGlassIncident p1 p2 ri ray i =
        glassFresnelInteraction ray i.point (circleEffective p1 p2 ri ray i).1
          (circleEffective p1 p2 ri ray i).2.1 (circleEffective p1 p2 ri ray i).2.2) ∧
    (∀ (path : List PolygonVertex) (ri : ℝ) (ray : SimulationRay) (i : IntersectionResult),
      polygonGlassIncident path ri ray i =
        glassFresnelInteraction ray i.point (polyEffective path ri ray i).1
          (polyEffective path ri ray i).2.1 (polyEffective path ri ray i).2.2) ∧
    (∀ (ray : SimulationRay) (pt n : Pt) (n1 n2 : ℝ),
      refract ray.direction n n1 n2 = none →
      glassFresnelInteraction ray pt n n1 n2 =
        { isAbsorbed := false
          outgoingRay := some
            { origin := pt
              direction := normalize (reflect ray.direction n)
              brightnessS := ray.brightnessS
              brightnessP := ray.brightnessP
              gap := false
              isNew := false
              wavelength := ray.wavelength }
          newRays := []
          truncation := none }) ∧
    (∀ (ray : SimulationRay) (pt n : Pt) (n1 n2 : ℝ) (rd : Pt),
      refract ray.direction n n1 n2 = some rd →
      (glassFresnelInteraction ray pt n n1 n2).outgoingRay = some
        { origin := pt
          direction := normalize rd
          brightnessS :=
            ray.brightnessS * (1 - (fresnelReflectance (|dot ray.direction n|) n1 n2).1)
          brightnessP :=
            ray.brightnessP * (1 - (fresnelReflectance (|dot ray.direction n|) n1 n2).2)
          gap := false
          isNew := false
          wavelength := ray.wavelength } ∧
      ((glassFresnelInteraction ray pt n n1 n2).newRays ≠ [] ↔
        ray.brightnessS * (fresnelReflectance (|dot ray.direction n|) n1 n2).1 +
          ray.brightnessP * (fresnelReflectance (|dot ray.direction n|) n1 n2).2 >
          FRESNEL_REFLECTION_THRESHOLD) ∧
      (ray.brightnessS * (fresnelReflectance (|dot ray.direction n|) n1 n2).1 +
          ray.brightnessP * (fresnelReflectance (|dot ray.direction n|) n1 n2).2 >
          FRESNEL_REFLECTION_THRESHOLD →
        (glassFresnelInteraction ray pt n n1 n2).newRays =
          [{ origin := pt
             direction := normalize (reflect ray.direction n)
             brightnessS := ray.brightnessS * (fresnelReflectance (|dot ray.direction n|) n1 n2).1
             brightnessP := ray.brightnessP * (fresnelReflectance (|dot ray.direction n|) n1 n2).2
             gap := true
             isNew := false
             wavelength := ray.wavelength }])) := by
  refine ⟨halfPlaneGlassIncident_eq, circleGlassIncident_eq, polygonGlassIncident_eq,
    fun ray pt n n1 n2 h => ?_, fun ray pt n n1 n2 rd h => ?_⟩
  · unfold glassFresnelInteraction
    rw [h]
  · refine ⟨?_, ?_, ?_⟩
    · simp only [glassFresnelInteraction, h]
    · simp only [glassFresnelInteraction, h]
      split_ifs with hc
      · simp only [ne_eq, List.cons_ne_self]
        simpa using hc
      · simpa using hc
    · intro hc
      simp only [glassFresnelInteraction, h]
      rw [if_pos hc]

/-- Witness for C4: a grazing ray inside glass (n1 = 3/2, n2 = 1) undergoes
total internal reflection with full brightness; a perpendicular ray entering
glass refracts with the Fresnel-attenuated brightness. -/
theorem glassKinds_shared_fresnel_witness :
    glassFresnelInteraction ⟨⟨0, 0⟩, ⟨1, 0⟩, 1 / 2, 1 / 2, false, false, none⟩
        ⟨0, 0⟩ ⟨0, 1⟩ (3 / 2) 1 =
      { isAbsorbed := false
        outgoingRay := some
          { origin := ⟨0, 0⟩
            direction := normalize (reflect ⟨1, 0⟩ ⟨0, 1⟩)
            brightnessS := 1 / 2
            brightnessP := 1 / 2
            gap := false
            isNew := false
            wavelength := none }
        newRays := []
        truncation := none } ∧
    (glassFresnelInteraction ⟨⟨0, 1⟩, ⟨0, -1⟩, 1 / 2, 1 / 2, false, false, none⟩
        ⟨0, 0⟩ ⟨0, 1⟩ 1 (3 / 2)).outgoingRay =
      some
        { origin := ⟨0, 0⟩
          direction := normalize ⟨0, -1⟩
          brightnessS := 1 / 2 * (1 - (fresnelReflectance (|dot ⟨0, -1⟩ ⟨0, 1⟩|) 1 (3 / 2)).1)
          brightnessP := 1 / 2 * (1 - (fresnelReflectance (|dot ⟨0, -1⟩ ⟨0, 1⟩|) 1 (3 / 2)).2)
          gap := false
          isNew := false
          wavelength := none } :=
  ⟨glassKinds_shared_fresnel.2.2.2.1 ⟨⟨0, 0⟩, ⟨1, 0⟩, 1 / 2, 1 / 2, false, false, none⟩
      ⟨0, 0⟩ ⟨0, 1⟩ (3 / 2) 1 (by norm_num [refract, dot]),
    (glassKinds_shared_fresnel.2.2.2.2 ⟨⟨0, 1⟩, ⟨0, -1⟩, 1 / 2, 1 / 2, false, false, none⟩
      ⟨0, 0⟩ ⟨0, 1⟩ 1 (3 / 2) ⟨0, -1⟩
      (by norm_num [refract, dot, Real.sqrt_one])).1⟩

/-- A quotient of difference over sum of two non-negative reals has square
at most one (division by zero giving zero). -/
theorem sq_div_le_one_of_nonneg {p q : ℝ} (hp : 0 ≤ p) (hq : 0 ≤ q) :
    ((p - q) / (p + q)) ^ 2 ≤ 1 := by
  by_cases h : p + q = 0
  · have hp0 : p = 0 := by linarith
    have hq0 : q = 0 := by linarith
    rw [hp0, hq0]
    norm_num
  · have hpos : 0 < p + q := lt_of_le_of_ne (by linarith) (Ne.symm h)
    rw [div_pow, div_le_one (by positivity)]
    nlinarith

/-- The Fresnel reflectances lie in [0, 1] for positive refractive indices. -/
theorem fresnelReflectance_mem (cosI n1 n2 : ℝ) (h1 : 0 < n1) (h2 : 0 < n2) :
    0 ≤ (fresnelReflectance cosI n1 n2).1 ∧ (fresnelReflectance cosI n1 n2).1 ≤ 1 ∧
    0 ≤ (fresnelReflectance cosI n1 n2).2 ∧ (fresnelReflectance cosI n1 n2).2 ≤ 1 := by
  simp only [fresnelReflectance]
  split_ifs with h
  · norm_num
  · simp only
    refine ⟨sq_nonneg _, ?_, sq_nonneg _, ?_⟩
    · exact sq_div_le_one_of_nonneg (mul_nonneg h1.le (abs_nonneg _))
        (mul_nonneg h2.le (Real.sqrt_nonneg _))
    · exact sq_div_le_one_of_nonneg (mul_nonneg h1.le (Real.sqrt_nonneg _))
        (mul_nonneg h2.le (abs_nonneg _))

/-- Brightness accounting of the shared Fresnel interaction: outputs are
non-negative, the total never exceeds the incident combined brightness,
with equality under total internal reflection and when the reflected branch
is spawned, and a deficit of exactly the dropped reflected brightness
(itself at most the spawn threshold) when it is not. -/
theorem glassFresnelInteraction_brightness (ray : SimulationRay) (pt n : Pt)
    (n1 n2 : ℝ) (h1 : 0 < n1) (h2 : 0 < n2)
    (hS : 0 ≤ ray.brightnessS) (hP : 0 ≤ ray.brightnessP) :
    (∀ r ∈ interactionRays (glassFresnelInteraction ray pt n n1 n2), r.nonnegBright) ∧
    interactionTotal (glassFresnelInteraction ray pt n n1 n2) ≤ ray.combined ∧
    (refract ray.direction n n1 n2 = none →
      interactionTotal (glassFresnelInteraction ray pt n n1 n2) = ray.combined) ∧
    ((glassFresnelInteraction ray pt n n1 n2).newRays ≠ [] →
      interactionTotal (glassFresnelInteraction ray pt n n1 n2) = ray.combined) ∧
    (∀ rd : Pt, refract ray.direction n n1 n2 = some rd →
      (glassFresnelInteraction ray pt n n1 n2).newRays = [] →
      interactionTotal (glassFresnelInteraction ray pt n n1 n2) =
        ray.combined -
          (ray.brightnessS * (fresnelReflectance (|dot ray.direction n|) n1 n2).1 +
            ray.brightnessP * (fresnelReflectance (|dot ray.direction n|) n1 n2).2) ∧
      0 ≤ ray.brightnessS * (fresnelReflectance (|dot ray.direction n|) n1 n2).1 +
          ray.brightnessP * (fresnelReflectance (|dot ray.direction n|) n1 n2).2 ∧
      ray.brightnessS * (fresnelReflectance (|dot ray.direction n|) n1 n2).1 +
          ray.brightnessP * (fresnelReflectance (|dot ray.direction n|) n1 n2).2 ≤
        FRESNEL_REFLECTION_THRESHOLD) := by
  obtain ⟨hRs0, hRs1, hRp0, hRp1⟩ :=
    fresnelReflectance_mem (|dot ray.direction n|) n1 n2 h1 h2
  cases href : refract ray.direction n n1 n2 with
  | none =>
    have hg : glassFresnelInteraction ray pt n n1 n2 =
        { isAbsorbed := false
          outgoingRay := some
            { origin := pt
              direction := normalize (reflect ray.direction n)
              brightnessS := ray.brightnessS
              brightnessP := ray.brightnessP
              gap := false
              isNew := false
              wavelength := ray.wavelength }
          newRays := []
          truncation := none } := by
      simp only [glassFresnelInteraction, href]
    rw [hg]
    refine ⟨?_, ?_, fun _ => ?_, by simp, fun rd hrd => ?_⟩
    · intro r hr
      simp only [interactionRays, Option.toList, List.append_nil, List.mem_singleton] at hr
      subst hr
      exact ⟨hS, hP⟩
    · simp [interactionTotal, interactionRays, SimulationRay.combined]
    · simp [interactionTotal, interactionRays, SimulationRay.combined]
    · exact Option.noConfusion hrd
  | some rd =>
    by_cases hc : ray.brightnessS * (fresnelReflectance (|dot ray.direction n|) n1 n2).1 +
        ray.brightnessP * (fresnelReflectance (|dot ray.direction n|) n1 n2).2 >
        FRESNEL_REFLECTION_THRESHOLD
    · have hg : glassFresnelInteraction ray pt n n1 n2 =
          { isAbsorbed := false
            outgoingRay := some
              { origin := pt
                direction := normalize rd
                brightnessS :=
                  ray.brightnessS * (1 - (fresnelReflectance (|dot ray.direction n|) n1 n2).1)
                brightnessP :=
                  ray.brightnessP * (1 - (fresnelReflectance (|dot ray.direction n|) n1 n2).2)
                gap := false
                isNew := false
                wavelength := ray.wavelength }
            newRays :=
              [{ origin := pt
                 direction := normalize (reflect ray.direction n)
                 brightnessS :=
                   ray.brightnessS * (fresnelReflectance (|dot ray.direction n|) n1 n2).1
                 brightnessP :=
                   ray.brightnessP * (fresnelReflectance (|dot ray.direction n|) n1 n2).2
                 gap := true
                 isNew := false
                 wavelength := ray.wavelength }]
            truncation := none } := by
        simp only [glassFresnelInteraction, href]
        rw [if_pos hc]
      rw [hg]
      refine ⟨?_, ?_, fun hnone => ?_, fun _ => ?_, fun rd' hrd' hempty => ?_⟩
      · intro r hr
        simp only [interactionRays, Option.toList, List.cons_append, List.nil_append,
          List.mem_cons, List.mem_singleton, List.not_mem_nil, or_false] at hr
        rcases hr with rfl | rfl
        · exact ⟨mul_nonneg hS (by linarith), mul_nonneg hP (by linarith)⟩
        · exact ⟨mul_nonneg hS hRs0, mul_nonneg hP hRp0⟩
      · have : interactionTotal
            { isAbsorbed := false
              outgoingRay := some
                { origin := pt
                  direction := normalize rd
                  brightnessS :=
                    ray.brightnessS * (1 - (fresnelReflectance (|dot ray.direction n|) n1 n2).1)
                  brightnessP :=
                    ray.brightnessP * (1 - (fresnelReflectance (|dot ray.direction n|) n1 n2).2)
                  gap := false
                  isNew := false
                  wavelength := ray.wavelength }
              newRays :=
                [{ origin := pt
                   direction := normalize (reflect ray.direction n)
                   brightnessS :=
                     ray.brightnessS * (fresnelReflectance (|dot ray.direction n|) n1 n2).1
                   brightnessP :=
                     ray.brightnessP * (fresnelReflectance (|dot ray.direction n|) n1 n2).2
                   gap := true
                   isNew := false
                   wavelength := ray.wavelength }]
              truncation := none } = ray.combined := by
          simp [interactionTotal, interactionRays, SimulationRay.combined]
          ring
        rw [this]
      · exact Option.noConfusion hnone
      · simp [interactionTotal, interactionRays, SimulationRay.combined]
        ring
      · exact absurd hempty (by simp)
    · have hg : glassFresnelInteraction ray pt n n1 n2 =
          { isAbsorbed := false
            outgoingRay := some
              { origin := pt
                direction := normalize rd
                brightnessS :=
                  ray.brightnessS * (1 - (fresnelReflectance (|dot ray.direction n|) n1 n2).1)
                brightnessP :=
                  ray.brightnessP * (1 - (fresnelReflectance (|dot ray.direction n|) n1 n2).2)
                gap := false
                isNew := false
                wavelength := ray.wavelength }
            newRays := []
            truncation := none } := by
        simp only [glassFresnelInteraction, href]
        rw [if_neg hc]
      rw [hg]
      refine ⟨?_, ?_, fun hnone => ?_, by simp, fun rd' hrd' hempty => ?_⟩
      · intro r hr
        simp only [interactionRays, Option.toList, List.append_nil, List.mem_singleton] at hr
        subst hr
        exact ⟨mul_nonneg hS (by linarith), mul_nonneg hP (by linarith)⟩
      · simp only [interactionTotal, interactionRays, Option.toList, List.append_nil,
          List.map, List.sum_cons, List.sum_nil, SimulationRay.combined]
        nlinarith
      · exact Option.noConfusion hnone
      · refine ⟨?_, ?_, not_lt.mp hc⟩
        · simp only [interactionTotal, interactionRays, Option.toList, List.append_nil,
            List.map, List.sum_cons, List.sum_nil, SimulationRay.combined]
          ring
        · exact add_nonneg (mul_nonneg hS hRs0) (mul_nonneg hP hRp0)

/-- The mirror interaction passes the brightness through unchanged. -/
theorem segmentMirrorIncident_total (ray : SimulationRay) (i : IntersectionResult) :
    interactionTotal (segmentMirrorIncident ray i) = ray.combined := by
  simp [segmentMirrorIncident, interactionTotal, interactionRays, SimulationRay.combined]

/-- The beam splitter splits the brightness exactly: transmitted plus
reflected equals incident, per polarization sum. -/
theorem beamSplitterIncident_total (tr : ℝ) (ray : SimulationRay) (i : IntersectionResult) :
    interactionTotal (beamSplitterIncident tr ray i) = ray.combined := by
  simp only [beamSplitterIncident, interactionTotal, interactionRays, Option.toList,
    List.cons_append, List.nil_append, List.map, List.sum_cons, List.sum_nil,
    SimulationRay.combined]
  ring

/-- The ideal lens passes the brightness through unchanged in all branches. -/
theorem idealLensIncident_total (p1 p2 : Pt) (f : ℝ) (ray : SimulationRay)
    (i : IntersectionResult) :
    interactionTotal (idealLensIncident p1 p2 f ray i) = ray.combined := by
  simp only [idealLensIncident]
  split_ifs <;>
    simp [interactionTotal, interactionRays, SimulationRay.combined]

/-- The absorbing default interaction emits nothing. -/
theorem defaultIncident_total : interactionTotal defaultIncident = 0 := by
  simp [defaultIncident, interactionTotal, interactionRays]

/-- The effective index pair selected by HalfPlaneGlass is positive. -/
theorem hpgEffective_pos (ri : ℝ) (hri : 0 < ri) (ray : SimulationRay)
    (i : IntersectionResult) :
    0 < (hpgEffective ri ray i).2.1 ∧ 0 < (hpgEffective ri ray i).2.2 := by
  unfold hpgEffective
  split_ifs <;> exact ⟨by norm_num <;> exact hri, by norm_num <;> exact hri⟩

/-- The effective index pair selected by CircleGlass is positive. -/
theorem circleEffective_pos (p1 p2 : Pt) (ri : ℝ) (hri : 0 < ri) (ray : SimulationRay)
    (i : IntersectionResult) :
    0 < (circleEffective p1 p2 ri ray i).2.1 ∧ 0 < (circleEffective p1 p2 ri ray i).2.2 := by
  unfold circleEffective
  split_ifs <;> exact ⟨by norm_num <;> exact hri, by norm_num <;> exact hri⟩

/-- The effective index pair selected by PolygonGlass is positive. -/
theorem polyEffective_pos (path : List PolygonVertex) (ri : ℝ) (hri : 0 < ri)
    (ray : SimulationRay) (i : IntersectionResult) :
    0 < (polyEffective path ri ray i).2.1 ∧ 0 < (polyEffective path ri ray i).2.2 := by
  unfold polyEffective
  split_ifs <;> exact ⟨by norm_num <;> exact hri, by norm_num <;> exact hri⟩

/-- Every onRayIncident of a valid element keeps the outgoing brightnesses
non-negative and never increases the combined brightness. -/
theorem element_interaction_brightness (e : Element) (hv : e.valid)
    (ray : SimulationRay) (i : IntersectionResult)
    (hS : 0 ≤ ray.brightnessS) (hP : 0 ≤ ray.brightnessP) :
    (∀ r ∈ interactionRays (e.onRayIncident ray i), r.nonnegBright) ∧
    interactionTotal (e.onRayIncident ray i) ≤ ray.combined := by
  cases e with
  | segmentMirror eid p1 p2 =>
    refine ⟨?_, le_of_eq (segmentMirrorIncident_total ray i)⟩
    intro r hr
    simp only [Element.onRayIncident, segmentMirrorIncident, interactionRays,
      Option.toList, List.append_nil, List.mem_singleton] at hr
    subst hr
    exact ⟨hS, hP⟩
  | beamSplitter eid p1 p2 tr =>
    obtain ⟨h0, h1⟩ := hv
    refine ⟨?_, le_of_eq (beamSplitterIncident_total tr ray i)⟩
    intro r hr
    simp only [Element.onRayIncident, beamSplitterIncident, interactionRays,
      Option.toList, List.cons_append, List.nil_append, List.mem_cons,
      List.mem_singleton, List.not_mem_nil, or_false] at hr
    rcases hr with rfl | rfl
    · exact ⟨mul_nonneg hS h0, mul_nonneg hP h0⟩
    · exact ⟨mul_nonneg hS (by linarith), mul_nonneg hP (by linarith)⟩
  | halfPlaneGlass eid p1 p2 ri =>
    obtain ⟨h1, h2⟩ := hpgEffective_pos ri hv ray i
    have heq : Element.onRayIncident (.halfPlaneGlass eid p1 p2 ri) ray i =
        glassFresnelInteraction ray i.point (hpgEffective ri ray i).1
          (hpgEffective ri ray i).2.1 (hpgEffective ri ray i).2.2 :=
      halfPlaneGlassIncident_eq ri ray i
    rw [heq]
    obtain ⟨ha, hb, _⟩ := glassFresnelInteraction_brightness ray i.point
      (hpgEffective ri ray i).1 (hpgEffective ri ray i).2.1
      (hpgEffective ri ray i).2.2 h1 h2 hS hP
    exact ⟨ha, hb⟩
  | circleGlass eid p1 p2 ri =>
    obtain ⟨h1, h2⟩ := circleEffective_pos p1 p2 ri hv ray i
    have heq : Element.onRayIncident (.circleGlass eid p1 p2 ri) ray i =
        glassFresnelInteraction ray i.point (circleEffective p1 p2 ri ray i).1
          (circleEffective p1 p2 ri ray i).2.1 (circleEffective p1 p2 ri ray i).2.2 :=
      circleGlassIncident_eq p1 p2 ri ray i
    rw [heq]
    obtain ⟨ha, hb, _⟩ := glassFresnelInteraction_brightness ray i.point
      (circleEffective p1 p2 ri ray i).1 (circleEffective p1 p2 ri ray i).2.1
      (circleEffective p1 p2 ri ray i).2.2 h1 h2 hS hP
    exact ⟨ha, hb⟩
  | polygonGlass eid path ri =>
    obtain ⟨h1, h2⟩ := polyEffective_pos path ri hv ray i
    have heq : Element.onRayIncident (.polygonGlass eid path ri) ray i =
        glassFresnelInteraction ray i.point (polyEffective path ri ray i).1
          (polyEffective path ri ray i).2.1 (polyEffective path ri ray i).2.2 :=
      polygonGlassIncident_eq path ri ray i
    rw [heq]
    obtain ⟨ha, hb, _⟩ := glassFresnelInteraction_brightness ray i.point
      (polyEffective path ri ray i).1 (polyEffective path ri ray i).2.1
      (polyEffective path ri ray i).2.2 h1 h2 hS hP
    exact ⟨ha, hb⟩
  | idealLens eid p1 p2 f =>
    refine ⟨?_, le_of_eq (idealLensIncident_total p1 p2 f ray i)⟩
    intro r hr
    simp only [Element.onRayIncident, idealLensIncident] at hr
    split_ifs at hr <;>
      (simp only [interactionRays, Option.toList, List.append_nil,
        List.mem_singleton] at hr; subst hr) <;>
      exact ⟨hS, hP⟩
  | lineBlocker eid p1 p2 =>
    refine ⟨?_, ?_⟩
    · intro r hr
      simp [Element.onRayIncident, defaultIncident, interactionRays] at hr
    · simp only [Element.onRayIncident, defaultIncident_total, SimulationRay.combined]
      exact add_nonneg hS hP
  | pointSource eid pos b w =>
    refine ⟨?_, ?_⟩
    · intro r hr
      simp [Element.onRayIncident, defaultIncident, interactionRays] at hr
    · simp only [Element.onRayIncident, defaultIncident_total, SimulationRay.combined]
      exact add_nonneg hS hP
  | singleRaySource eid p1 p2 b w =>
    refine ⟨?_, ?_⟩
    · intro r hr
      simp [Element.onRayIncident, defaultIncident, interactionRays] at hr
    · simp only [Element.onRayIncident, defaultIncident_total, SimulationRay.combined]
      exact add_nonneg hS hP

/-- Every ray emitted by a valid source has non-negative brightness. -/
theorem emitRays_nonneg (e : Element) (hv : e.valid) (density : ℝ) (mode : ViewMode)
    (hd : 0 < density) :
    ∀ r ∈ e.emitRays density mode, r.nonnegBright := by
  cases e with
  | pointSource eid pos b w =>
    intro r hr
    simp only [Element.emitRays, pointSourceEmit, List.mem_map, List.mem_range] at hr
    obtain ⟨k, _, rfl⟩ := hr
    have hb : 0 ≤ min (b / density) 1 :=
      le_min (div_nonneg hv hd.le) zero_le_one
    constructor <;>
      exact mul_nonneg hb (by norm_num [POLARIZATION_SPLIT])
  | singleRaySource eid p1 p2 b w =>
    intro r hr
    simp only [Element.emitRays, singleRayEmit, List.mem_singleton] at hr
    subst hr
    constructor <;> exact mul_nonneg (by norm_num) hv
  | segmentMirror eid p1 p2 => intro r hr; simp [Element.emitRays] at hr
  | beamSplitter eid p1 p2 tr => intro r hr; simp [Element.emitRays] at hr
  | halfPlaneGlass eid p1 p2 ri => intro r hr; simp [Element.emitRays] at hr
  | circleGlass eid p1 p2 ri => intro r hr; simp [Element.emitRays] at hr
  | polygonGlass eid path ri => intro r hr; simp [Element.emitRays] at hr
  | idealLens eid p1 p2 f => intro r hr; simp [Element.emitRays] at hr
  | lineBlocker eid p1 p2 => intro r hr; simp [Element.emitRays] at hr

/-- findSome? only returns values produced by the selector. -/
theorem findSome?_forall {α β : Type} (f : α → Option β) (P : β → Prop)
    (hf : ∀ a b, f a = some b → P b) :
    ∀ (l : List α) (b : β), l.findSome? f = some b → P b := by
  intro l
  induction l with
  | nil => intro b hb; simp [List.findSome?_nil] at hb
  | cons a t ih =>
    intro b hb
    rw [List.findSome?_cons] at hb
    cases hfa : f a with
    | none => rw [hfa] at hb; exact ih b hb
    | some v =>
      rw [hfa] at hb
      injection hb with hb
      subst hb
      exact hf a v hfa

/-- A foldl invariant principle restricted to members of the list. -/
theorem foldl_option_preserve {α β : Type} (Q : β → Prop) (f : β → α → β)
    (l : List α) (init : β) (hinit : Q init)
    (hstep : ∀ acc x, x ∈ l → Q acc → Q (f acc x)) : Q (l.foldl f init) := by
  induction l generalizing init with
  | nil => exact hinit
  | cons x xs ih =>
    exact ih (f init x) (hstep init x (List.mem_cons_self x xs) hinit)
      (fun acc y hy hQ => hstep acc y (List.mem_cons_of_mem x hy) hQ)

/-- segmentMirrorCheck stores the element itself in the result. -/
theorem segmentMirrorCheck_self {self : Element} {p1 p2 : Pt} {ray : SimulationRay}
    {hit : IntersectionResult} (h : segmentMirrorCheck self p1 p2 ray = some hit) :
    hit.element = self := by
  unfold segmentMirrorCheck at h
  cases hrsi : raySegmentIntersection ray.origin ray.direction ⟨p1, p2⟩ with
  | none => rw [hrsi] at h; exact Option.noConfusion h
  | some h0 =>
    rw [hrsi] at h
    simp only [Option.some.injEq] at h
    subst h
    rfl

/-- halfPlaneGlassCheck stores the element itself in the result. -/
theorem halfPlaneGlassCheck_self {self : Element} {p1 p2 : Pt} {ray : SimulationRay}
    {hit : IntersectionResult} (h : halfPlaneGlassCheck self p1 p2 ray = some hit) :
    hit.element = self := by
  unfold halfPlaneGlassCheck at h
  cases hrsi : raySegmentIntersection ray.origin ray.direction ⟨p1, p2⟩ with
  | none => rw [hrsi] at h; exact Option.noConfusion h
  | some h0 =>
    rw [hrsi] at h
    simp only [Option.some.injEq] at h
    subst h
    rfl

/-- circleGlassCheck stores the element itself in the result. -/
theorem circleGlassCheck_self {self : Element} {p1 p2 : Pt} {ray : SimulationRay}
    {hit : IntersectionResult} (h : circleGlassCheck self p1 p2 ray = some hit) :
    hit.element = self := by
  unfold circleGlassCheck at h
  refine findSome?_forall _ (fun r => r.element = self) ?_ _ hit h
  intro a b hab
  simp only at hab
  split_ifs at hab with hd
  simp only [Option.some.injEq] at hab
  subst hab
  rfl

/-- polygonGlassCheck stores the element itself in the result. -/
theorem polygonGlassCheck_self {self : Element} {path : List PolygonVertex}
    {ray : SimulationRay} {hit : IntersectionResult}
    (h : polygonGlassCheck self path ray = some hit) : hit.element = self := by
  unfold polygonGlassCheck at h
  refine foldl_option_preserve
    (fun acc : Option IntersectionResult => ∀ b, acc = some b → b.element = self)
    _ _ none (fun b hb => Option.noConfusion hb) ?_ hit h
  intro acc x hx hQ b
  dsimp only
  cases hrs : raySegmentIntersection ray.origin ray.direction
      ⟨(polygonVertices path).getD x ⟨0, 0⟩,
       (polygonVertices path).getD ((x + 1) % (polygonVertices path).length) ⟨0, 0⟩⟩ with
  | none => exact hQ b
  | some hx0 =>
    dsimp only
    split_ifs with hdist
    · exact hQ b
    · cases acc with
      | none =>
        dsimp only
        intro hb
        injection hb with hb
        subst hb
        rfl
      | some bb =>
        dsimp only
        split_ifs with ht
        · intro hb
          injection hb with hb
          subst hb
          rfl
        · exact hQ b

/-- checkRayIntersection stores the element itself in the result. -/
theorem check_self {e : Element} {ray : SimulationRay} {hit : IntersectionResult}
    (h : e.checkRayIntersection ray = some hit) : hit.element = e := by
  cases e with
  | segmentMirror eid p1 p2 => exact segmentMirrorCheck_self h
  | beamSplitter eid p1 p2 tr => exact segmentMirrorCheck_self h
  | halfPlaneGlass eid p1 p2 ri => exact halfPlaneGlassCheck_self h
  | circleGlass eid p1 p2 ri => exact circleGlassCheck_self h
  | polygonGlass eid path ri => exact polygonGlassCheck_self h
  | idealLens eid p1 p2 f => exact halfPlaneGlassCheck_self h
  | lineBlocker eid p1 p2 => exact segmentMirrorCheck_self h
  | pointSource eid pos b w => simp [Element.checkRayIntersection] at h
  | singleRaySource eid p1 p2 b w => simp [Element.checkRayIntersection] at h

/-- The nearest intersection belongs to an element of the scene list. -/
theorem findNearestIntersection_mem {elements : List Element} {ray : SimulationRay}
    {hit : IntersectionResult} (h : findNearestIntersection elements ray = some hit) :
    hit.element ∈ elements := by
  unfold findNearestIntersection at h
  refine foldl_option_preserve
    (fun acc : Option IntersectionResult => ∀ b, acc = some b → b.element ∈ elements)
    _ _ none (fun b hb => Option.noConfusion hb) ?_ hit h
  intro acc x hx hQ b
  dsimp only
  split_ifs with hcat
  · exact hQ b
  · cases hcx : x.checkRayIntersection ray with
    | none => exact hQ b
    | some hx0 =>
      dsimp only
      cases acc with
      | none =>
        dsimp only
        intro hb
        injection hb with hb
        subst hb
        rw [check_self hcx]
        exact hx
      | some bb =>
        dsimp only
        split_ifs with ht
        · intro hb
          injection hb with hb
          subst hb
          rw [check_self hcx]
          exact hx
        · exact hQ b

/-- Membership in a conditional empty-else list. -/
theorem mem_ite_nil {α : Type} {c : Prop} [Decidable c] {l : List α} {x : α}
    (h : x ∈ (if c then l else [])) : x ∈ l := by
  split_ifs at h with hc
  · exact h
  · exact absurd h (List.not_mem_nil x)

/-- Segments recorded for an escaped ray copy the ray's brightness. -/
theorem recordEscapedRay_brightness (cfg : RayTracerConfig) (ray : SimulationRay) :
    ∀ s ∈ recordEscapedRay cfg ray,
      s.brightnessS = ray.brightnessS ∧ s.brightnessP = ray.brightnessP := by
  intro s hs
  unfold recordEscapedRay at hs
  split_ifs at hs with hc
  · simp only [List.mem_cons, List.mem_singleton, List.not_mem_nil, or_false] at hs
    rcases hs with rfl | rfl <;> exact ⟨rfl, rfl⟩
  · simp only [List.mem_singleton] at hs
    subst hs
    exact ⟨rfl, rfl⟩

/-- Backward-extension segments copy the ray's brightness. -/
theorem processExtendedRay_brightness (ray : SimulationRay) :
    ∀ s ∈ processExtendedRay ray,
      s.brightnessS = ray.brightnessS ∧ s.brightnessP = ray.brightnessP := by
  intro s hs
  unfold processExtendedRay at hs
  split_ifs at hs with hc
  · exact absurd hs (List.not_mem_nil s)
  · simp only [List.mem_singleton] at hs
    subst hs
    exact ⟨rfl, rfl⟩

/-- A non-truncated processRayEntry emits only non-negative segments and
enqueues only non-negative rays, for a valid scene. -/
theorem processRayEntry_outputs (cfg : RayTracerConfig) (elements : List Element)
    (hvalid : ∀ e ∈ elements, e.valid) (ray : SimulationRay) (depth : ℕ)
    (hS : 0 ≤ ray.brightnessS) (hP : 0 ≤ ray.brightnessP) :
    (∀ s ∈ (processRayEntry cfg elements ray depth).2.1,
      0 ≤ s.brightnessS ∧ 0 ≤ s.brightnessP) ∧
    (∀ q ∈ (processRayEntry cfg elements ray depth).2.2,
      (q : SimulationRay × ℕ).1.nonnegBright) := by
  unfold processRayEntry
  by_cases h1 : (depth : ℝ) ≥ cfg.maxRayDepth
  · rw [if_pos h1]
    exact ⟨fun s hs => absurd hs (List.not_mem_nil s),
      fun q hq => absurd hq (List.not_mem_nil q)⟩
  · rw [if_neg h1]
    by_cases h2 : ray.brightnessS + ray.brightnessP < cfg.minBrightness
    · rw [if_pos h2]
      exact ⟨fun s hs => absurd hs (List.not_mem_nil s),
        fun q hq => absurd hq (List.not_mem_nil q)⟩
    · rw [if_neg h2]
      cases hni : findNearestIntersection elements ray with
      | none =>
        dsimp only
        refine ⟨?_, fun q hq => absurd hq (List.not_mem_nil q)⟩
        intro s hs
        obtain ⟨hsS, hsP⟩ := recordEscapedRay_brightness cfg ray s hs
        rw [hsS, hsP]
        exact ⟨hS, hP⟩
      | some i =>
        have hval : i.element.valid := hvalid _ (findNearestIntersection_mem hni)
        obtain ⟨hnn, _⟩ := element_interaction_brightness i.element hval ray i hS hP
        constructor
        · intro s hs
          dsimp only at hs
          simp only [List.mem_cons, List.mem_append] at hs
          rcases hs with (rfl | hs) | hs
          · exact ⟨hS, hP⟩
          · obtain ⟨hsS, hsP⟩ := processExtendedRay_brightness ray s (mem_ite_nil hs)
            rw [hsS, hsP]
            exact ⟨hS, hP⟩
          · have hs' := mem_ite_nil hs
            simp only [List.mem_singleton] at hs'
            subst hs'
            exact ⟨mul_nonneg hS (by norm_num), mul_nonneg hP (by norm_num)⟩
        · intro q hq
          dsimp only at hq
          simp only [List.mem_append, List.mem_map] at hq
          obtain ⟨r, hr | hr, rfl⟩ := hq
          · apply hnn
            by_cases habs : (i.element.onRayIncident ray i).isAbsorbed
            · rw [if_pos habs] at hr
              exact absurd hr (List.not_mem_nil r)
            · rw [if_neg habs] at hr
              exact List.mem_append_left _ hr
          · exact hnn r (List.mem_append_right _ hr)

/-- Along the work-queue loop, all recorded segments keep non-negative
brightness when the queue holds non-negative rays over a valid scene. -/
theorem runQueue_segments_nonneg (cfg : RayTracerConfig) (elements : List Element)
    (hvalid : ∀ e ∈ elements, e.valid) :
    ∀ (fuel : ℕ) (queue : List (SimulationRay × ℕ)) (segments : List TracedSegment)
      (truncation : ℝ),
      (∀ q ∈ queue, (q : SimulationRay × ℕ).1.nonnegBright) →
      (∀ s ∈ segments, 0 ≤ s.brightnessS ∧ 0 ≤ s.brightnessP) →
      ∀ s ∈ (runQueue cfg elements fuel queue segments truncation).1,
        0 ≤ s.brightnessS ∧ 0 ≤ s.brightnessP := by
  intro fuel
  induction fuel with
  | zero =>
    intro queue segments truncation hq hseg s hs
    cases queue with
    | nil => exact hseg s hs
    | cons e rest => exact hseg s hs
  | succ f ih =>
    intro queue segments truncation hq hseg s hs
    cases queue with
    | nil => exact hseg s hs
    | cons entry rest =>
      obtain ⟨hentS, hentP⟩ := hq entry (List.mem_cons_self entry rest)
      obtain ⟨hsegs, henq⟩ :=
        processRayEntry_outputs cfg elements hvalid entry.1 entry.2 hentS hentP
      refine ih (rest ++ (processRayEntry cfg elements entry.1 entry.2).2.2)
        (segments ++ (processRayEntry cfg elements entry.1 entry.2).2.1)
        (truncation + (processRayEntry cfg elements entry.1 entry.2).1) ?_ ?_ s hs
      · intro q hqmem
        rcases List.mem_append.mp hqmem with hql | hqr
        · exact hq q (List.mem_cons_of_mem entry hql)
        · exact henq q hqr
      · intro t htmem
        rcases List.mem_append.mp htmem with htl | htr
        · exact hseg t htl
        · exact hsegs t htr

/-- C2 amended: with non-negative source brightness, positive density,
positive refractive indices and beam-splitter ratios in [0,1], every ray at
every stage (emission, queued continuation, recorded segment) keeps
non-negative polarization brightnesses, and every interaction's summed
outgoing combined brightness is at most the incident one — with equality
for mirror reflection, beam splitting, ideal-lens passage, total internal
reflection and spawned Fresnel reflection, a deficit of exactly the incident
brightness on absorption, and a deficit of exactly the dropped reflected
brightness Rs·S + Rp·P (which may be zero, e.g. at refractive index 1, so
the decrease need not be strict) when the Fresnel branch is dropped. -/
theorem brightness_accounting_amended :
    (∀ e : Element, e.valid → ∀ (density : ℝ) (mode : ViewMode), 0 < density →
      ∀ r ∈ e.emitRays density mode, r.nonnegBright) ∧
    (∀ e : Element, e.valid → ∀ (ray : SimulationRay) (i : IntersectionResult),
      0 ≤ ray.brightnessS → 0 ≤ ray.brightnessP →
      (∀ r ∈ interactionRays (e.onRayIncident ray i), r.nonnegBright) ∧
      interactionTotal (e.onRayIncident ray i) ≤ ray.combined) ∧
    (∀ (eid : ℕ) (p1 p2 : Pt) (ray : SimulationRay) (hit : IntersectionResult),
      interactionTotal (Element.onRayIncident (.segmentMirror eid p1 p2) ray hit) =
        ray.combined) ∧
    (∀ (eid : ℕ) (p1 p2 : Pt) (tr : ℝ) (ray : SimulationRay) (hit : IntersectionResult),
      interactionTotal (Element.onRayIncident (.beamSplitter eid p1 p2 tr) ray hit) =
        ray.combined) ∧
    (∀ (eid : ℕ) (p1 p2 : Pt) (f : ℝ) (ray : SimulationRay) (hit : IntersectionResult),
      interactionTotal (Element.onRayIncident (.idealLens eid p1 p2 f) ray hit) =
        ray.combined) ∧
    (∀ (eid : ℕ) (p1 p2 : Pt) (ray : SimulationRay) (hit : IntersectionResult),
      interactionTotal (Element.onRayIncident (.lineBlocker eid p1 p2) ray hit) = 0) ∧
    (∀ (ray : SimulationRay) (pt n : Pt) (n1 n2 : ℝ), 0 < n1 → 0 < n2 →
      0 ≤ ray.brightnessS → 0 ≤ ray.brightnessP →
      (refract ray.direction n n1 n2 = none →
        interactionTotal (glassFresnelInteraction ray pt n n1 n2) = ray.combined) ∧
      ((glassFresnelInteraction ray pt n n1 n2).newRays ≠ [] →
        interactionTotal (glassFresnelInteraction ray pt n n1 n2) = ray.combined) ∧
      (∀ rd : Pt, refract ray.direction n n1 n2 = some rd →
        (glassFresnelInteraction ray pt n n1 n2).newRays = [] →
        interactionTotal (glassFresnelInteraction ray pt n n1 n2) =
          ray.combined -
            (ray.brightnessS * (fresnelReflectance (|dot ray.direction n|) n1 n2).1 +
              ray.brightnessP * (fresnelReflectance (|dot ray.direction n|) n1 n2).2) ∧
        0 ≤ ray.brightnessS * (fresnelReflectance (|dot ray.direction n|) n1 n2).1 +
            ray.brightnessP * (fresnelReflectance (|dot ray.direction n|) n1 n2).2)) ∧
    (∀ (cfg : RayTracerConfig) (elements : List Element),
      (∀ e ∈ elements, e.valid) →
      ∀ (ray : SimulationRay) (depth : ℕ), ray.nonnegBright →
        (∀ s ∈ (processRayEntry cfg elements ray depth).2.1,
          0 ≤ s.brightnessS ∧ 0 ≤ s.brightnessP) ∧
        (∀ q ∈ (processRayEntry cfg elements ray depth).2.2,
          (q : SimulationRay × ℕ).1.nonnegBright)) ∧
    (∀ (cfg : RayTracerConfig) (elements : List Element),
      (∀ e ∈ elements, e.valid) →
      ∀ (fuel : ℕ) (queue : List (SimulationRay × ℕ)) (segments : List TracedSegment)
        (truncation : ℝ),
        (∀ q ∈ queue, (q : SimulationRay × ℕ).1.nonnegBright) →
        (∀ s ∈ segments, 0 ≤ s.brightnessS ∧ 0 ≤ s.brightnessP) →
        ∀ s ∈ (runQueue cfg elements fuel queue segments truncation).1,
          0 ≤ s.brightnessS ∧ 0 ≤ s.brightnessP) := by
  refine ⟨emitRays_nonneg,
    fun e hv ray i hS hP => element_interaction_brightness e hv ray i hS hP,
    fun eid p1 p2 ray hit => segmentMirrorIncident_total ray hit,
    fun eid p1 p2 tr ray hit => beamSplitterIncident_total tr ray hit,
    fun eid p1 p2 f ray hit => idealLensIncident_total p1 p2 f ray hit,
    fun eid p1 p2 ray hit => defaultIncident_total,
    fun ray pt n n1 n2 h1 h2 hS hP => ?_,
    fun cfg elements hvalid ray depth hnn =>
      processRayEntry_outputs cfg elements hvalid ray depth hnn.1 hnn.2,
    runQueue_segments_nonneg⟩
  obtain ⟨-, -, h3, h4, h5⟩ :=
    glassFresnelInteraction_brightness ray pt n n1 n2 h1 h2 hS hP
  exact ⟨h3, h4, fun rd hrd hempty =>
    ⟨(h5 rd hrd hempty).1, (h5 rd hrd hempty).2.1⟩⟩

/-- Witness for the amended C2: a total-internal-reflection interaction
conserves the combined brightness exactly. -/
theorem brightness_accounting_amended_witness :
    interactionTotal
        (glassFresnelInteraction ⟨⟨0, 0⟩, ⟨1, 0⟩, 1 / 2, 1 / 2, false, false, none⟩
          ⟨0, 0⟩ ⟨0, 1⟩ (3 / 2) 1) =
      (⟨⟨0, 0⟩, ⟨1, 0⟩, 1 / 2, 1 / 2, false, false, none⟩ : SimulationRay).combined :=
  (brightness_accounting_amended.2.2.2.2.2.2.1
      ⟨⟨0, 0⟩, ⟨1, 0⟩, 1 / 2, 1 / 2, false, false, none⟩ ⟨0, 0⟩ ⟨0, 1⟩ (3 / 2) 1
      (by norm_num) (by norm_num) (by norm_num) (by norm_num)).1
    (by norm_num [refract, dot])

/-- Counterexample to C2 as stated: at refractive index 1 the Fresnel
reflectances vanish, the reflected branch is dropped, and the outgoing
brightness equals the incident brightness exactly — no strict decrease. -/
theorem brightness_strict_decrease_cex :
    Element.valid (.halfPlaneGlass 4 ⟨0, 0⟩ ⟨1, 0⟩ 1) ∧
    Element.checkRayIntersection (.halfPlaneGlass 4 ⟨0, 0⟩ ⟨1, 0⟩ 1)
        ⟨⟨0, 1⟩, ⟨0, -1⟩, 1 / 4, 1 / 4, false, true, none⟩ =
      some ⟨⟨0, 0⟩, 1, .halfPlaneGlass 4 ⟨0, 0⟩ ⟨1, 0⟩ 1, ⟨0, -1⟩⟩ ∧
    (Element.onRayIncident (.halfPlaneGlass 4 ⟨0, 0⟩ ⟨1, 0⟩ 1)
        ⟨⟨0, 1⟩, ⟨0, -1⟩, 1 / 4, 1 / 4, false, true, none⟩
        ⟨⟨0, 0⟩, 1, .halfPlaneGlass 4 ⟨0, 0⟩ ⟨1, 0⟩ 1, ⟨0, -1⟩⟩).newRays = [] ∧
    interactionTotal
        (Element.onRayIncident (.halfPlaneGlass 4 ⟨0, 0⟩ ⟨1, 0⟩ 1)
          ⟨⟨0, 1⟩, ⟨0, -1⟩, 1 / 4, 1 / 4, false, true, none⟩
          ⟨⟨0, 0⟩, 1, .halfPlaneGlass 4 ⟨0, 0⟩ ⟨1, 0⟩ 1, ⟨0, -1⟩⟩) =
      (⟨⟨0, 1⟩, ⟨0, -1⟩, 1 / 4, 1 / 4, false, true, none⟩ : SimulationRay).combined := by
  have hr : halfPlaneGlassIncident 1 ⟨⟨0, 1⟩, ⟨0, -1⟩, 1 / 4, 1 / 4, false, true, none⟩
      ⟨⟨0, 0⟩, 1, .halfPlaneGlass 4 ⟨0, 0⟩ ⟨1, 0⟩ 1, ⟨0, -1⟩⟩ =
      { isAbsorbed := false
        outgoingRay := some
          { origin := ⟨0, 0⟩
            direction := ⟨0, -1⟩
            brightnessS := 1 / 4
            brightnessP := 1 / 4
            gap := false
            isNew := false
            wavelength := none }
        newRays := []
        truncation := none } := by
    norm_num [halfPlaneGlassIncident, refract, fresnelReflectance, reflect, dot,
      normalize, hypot, FRESNEL_REFLECTION_THRESHOLD, Real.sqrt_one]
  refine ⟨by norm_num [Element.valid], ?_, ?_, ?_⟩
  · simp only [Element.checkRayIntersection, halfPlaneGlassCheck, raySegmentIntersection,
      segmentNormal, normalize, hypot, T_EPS, PARALLEL_EPS]
    norm_num [Real.sqrt_one]
  · rw [show Element.onRayIncident (.halfPlaneGlass 4 ⟨0, 0⟩ ⟨1, 0⟩ 1)
        ⟨⟨0, 1⟩, ⟨0, -1⟩, 1 / 4, 1 / 4, false, true, none⟩
        ⟨⟨0, 0⟩, 1, .halfPlaneGlass 4 ⟨0, 0⟩ ⟨1, 0⟩ 1, ⟨0, -1⟩⟩ =
        halfPlaneGlassIncident 1 ⟨⟨0, 1⟩, ⟨0, -1⟩, 1 / 4, 1 / 4, false, true, none⟩
        ⟨⟨0, 0⟩, 1, .halfPlaneGlass 4 ⟨0, 0⟩ ⟨1, 0⟩ 1, ⟨0, -1⟩⟩ from rfl, hr]
  · rw [show Element.onRayIncident (.halfPlaneGlass 4 ⟨0, 0⟩ ⟨1, 0⟩ 1)
        ⟨⟨0, 1⟩, ⟨0, -1⟩, 1 / 4, 1 / 4, false, true, none⟩
        ⟨⟨0, 0⟩, 1, .halfPlaneGlass 4 ⟨0, 0⟩ ⟨1, 0⟩ 1, ⟨0, -1⟩⟩ =
        halfPlaneGlassIncident 1 ⟨⟨0, 1⟩, ⟨0, -1⟩, 1 / 4, 1 / 4, false, true, none⟩
        ⟨⟨0, 0⟩, 1, .halfPlaneGlass 4 ⟨0, 0⟩ ⟨1, 0⟩ 1, ⟨0, -1⟩⟩ from rfl, hr]
    simp [interactionTotal, interactionRays, SimulationRay.combined]

/-- The spec-worded pair step coincides with the implementation's pair step. -/
theorem specConvStep_eq_convStep : specConvStep = convStep := by
  funext it st pr
  unfold specConvStep convStep cross subtract addPt scale
  rfl

/-- C7: in images mode, detection partitions the segments by isExtension
into independent forward and backward pools, enumerates every pair i < j
with both indices below 500, skips near-parallel direction pairs, dedups by
the quantized grid cell of the 2-line intersection keeping the first pair
per cell, reports the mean combined brightness, and labels the forward pool
real and the backward pool virtual. -/
theorem detectImages_eq_spec (segments : List TracedSegment) :
    detectImages segments = detectImagesSpec segments := by
  unfold detectImages detectImagesSpec findConvergencePoints
  rw [List.partition_eq_filter_filter, specConvStep_eq_convStep]
  have hfil : segments.filter (not ∘ fun s => !s.isExtension) =
      segments.filter (fun s => s.isExtension) :=
    List.filter_congr (fun x _ => by simp)
  rw [hfil]

/-- C10: SingleRaySource emits exactly one ray with gap = true; in
PointSourceElement's emission exactly the first ray has gap = true; and a
gap ray never receives a backward-extension segment (processExtendedRay
emits nothing and recordEscapedRay emits only the forward segment). -/
theorem gap_first_rays (density : ℝ) (mode : ViewMode) (_hd : 0 < density) :
    (∀ (eid : ℕ) (p1 p2 : Pt) (b w : ℝ),
      (Element.emitRays (.singleRaySource eid p1 p2 b w) density mode).map
        (fun r => r.gap) = [true]) ∧
    (∀ (eid : ℕ) (pos : Pt) (b w : ℝ),
      (Element.emitRays (.pointSource eid pos b w) density mode).map (fun r => r.gap) =
        true :: List.replicate
          ((Element.emitRays (.pointSource eid pos b w) density mode).length - 1) false) ∧
    (∀ ray : SimulationRay, ray.gap = true →
      processExtendedRay ray = [] ∧
      ∀ cfg : RayTracerConfig, recordEscapedRay cfg ray =
        [{ p1 := ray.origin, p2 := addPt ray.origin (scale ray.direction 10000)
           brightnessS := ray.brightnessS, brightnessP := ray.brightnessP
           wavelength := ray.wavelength, isExtension := false, isObserved := false }]) := by
  refine ⟨fun eid p1 p2 b w => rfl, fun eid pos b w => ?_, fun ray hg => ⟨?_, fun cfg => ?_⟩⟩
  · have hstep : (0 : ℝ) <
        Real.pi * 2 / max 1 (⌊density * RAY_DENSITY_SCALE⌋ : ℝ) := by
      apply div_pos
      · have := Real.pi_pos
        linarith
      · exact lt_of_lt_of_le one_pos (le_max_left _ _)
    have hbound : (0 : ℝ) <
        (Real.pi * 2 - 1 / 100000 -
          (if mode = ViewMode.observer then
            -(Real.pi * 2 / max 1 (⌊density * RAY_DENSITY_SCALE⌋ : ℝ)) * 2 + 1 / 1000000
          else 0)) /
          (Real.pi * 2 / max 1 (⌊density * RAY_DENSITY_SCALE⌋ : ℝ)) := by
      apply div_pos _ hstep
      split_ifs with hm
      · nlinarith [Real.pi_gt_three, hstep]
      · nlinarith [Real.pi_gt_three]
    have hcount : 0 < ⌈(Real.pi * 2 - 1 / 100000 -
        (if mode = ViewMode.observer then
          -(Real.pi * 2 / max 1 (⌊density * RAY_DENSITY_SCALE⌋ : ℝ)) * 2 + 1 / 1000000
        else 0)) /
        (Real.pi * 2 / max 1 (⌊density * RAY_DENSITY_SCALE⌋ : ℝ))⌉₊ :=
      Nat.ceil_pos.mpr hbound
    simp only [Element.emitRays, pointSourceEmit, List.map_map, List.length_map,
      List.length_range]
    obtain ⟨c, hc⟩ : ∃ c, ⌈(Real.pi * 2 - 1 / 100000 -
        (if mode = ViewMode.observer then
          -(Real.pi * 2 / max 1 (⌊density * RAY_DENSITY_SCALE⌋ : ℝ)) * 2 + 1 / 1000000
        else 0)) /
        (Real.pi * 2 / max 1 (⌊density * RAY_DENSITY_SCALE⌋ : ℝ))⌉₊ = c + 1 :=
      ⟨_ - 1, (Nat.succ_pred_eq_of_pos hcount).symm⟩
    rw [hc]
    rw [List.range_succ_eq_map]
    simp only [List.map_cons, List.map_map, Nat.add_sub_cancel]
    congr 1
    rw [List.eq_replicate_iff]
    constructor
    · simp
    · intro x hx
      simp only [List.mem_map, List.mem_range, Function.comp_apply] at hx
      obtain ⟨k, -, rfl⟩ := hx
      simp
  · unfold processExtendedRay
    rw [if_pos hg]
  · unfold recordEscapedRay
    rw [if_neg]
    simp [hg]

/-- Witness for C10: a concrete single-ray source emits one gap ray. -/
theorem gap_first_rays_witness :
    (Element.emitRays (.singleRaySource 2 ⟨0, 0⟩ ⟨1, 0⟩ 1 532) 1 .rays).map
      (fun r => r.gap) = [true] :=
  (gap_first_rays 1 .rays (by norm_num)).1 2 ⟨0, 0⟩ ⟨1, 0⟩ 1 532

/-- findIdx? succeeds whenever some member satisfies the test. -/
theorem findIdx?_isSome_of_any {α : Type} (p : α → Bool) :
    ∀ (l : List α) (start : ℕ), l.any p = true → (List.findIdx? p l start).isSome := by
  intro l
  induction l with
  | nil => intro start h; simp at h
  | cons x xs ih =>
    intro start h
    simp only [List.findIdx?]
    by_cases hx : p x
    · simp [hx]
    · simp only [List.any_cons, hx, Bool.false_or] at h
      simp only [hx, Bool.false_eq_true, if_false]
      exact ih _ h

/-- findIdx? fails when no member satisfies the test. -/
theorem findIdx?_eq_none_of_all_not {α : Type} (p : α → Bool) :
    ∀ (l : List α) (start : ℕ), l.all (fun e => !(p e)) = true →
      List.findIdx? p l start = none := by
  intro l
  induction l with
  | nil => intro start h; simp [List.findIdx?]
  | cons x xs ih =>
    intro start h
    simp only [List.all_cons, Bool.and_eq_true, Bool.not_eq_true'] at h
    simp only [List.findIdx?, h.1, Bool.false_eq_true, if_false]
    exact ih _ (by simpa using h.2)

/-- A clean scene with a cache returns the cached result without recomputing. -/
theorem simulate_clean (s : OpticsScene) (r : TraceResult)
    (hd : s.dirty = false) (hc : s.cachedResult = some r) :
    s.simulate = (r, s, false) := by
  unfold OpticsScene.simulate
  rw [hd, hc]

/-- A dirty scene recomputes on simulate. -/
theorem simulate_dirty_recomputes (s : OpticsScene) (hd : s.dirty = true) :
    s.simulate.2.2 = true := by
  unfold OpticsScene.simulate
  rw [hd]

/-- C8: simulate is cached behind the dirty flag — a second simulate with no
intervening mutation returns the identical result without recomputation,
every mutator marks the scene dirty and drops the cache (so the next
simulate recomputes), and a clean cached scene returns its cache. -/
theorem simulate_cache_behavior :
    (∀ s : OpticsScene,
      (s.simulate.2.1).simulate.1 = s.simulate.1 ∧
      (s.simulate.2.1).simulate.2.1 = s.simulate.2.1 ∧
      (s.simulate.2.1).simulate.2.2 = false) ∧
    (∀ (s : OpticsScene) (e : Element),
      (s.addElement e).dirty = true ∧ (s.addElement e).cachedResult = none) ∧
    (∀ (s : OpticsScene) (elementId : ℕ),
      s.elements.any (fun e => e.eid == elementId) = true →
      (s.removeElement elementId).1 = true ∧
      (s.removeElement elementId).2.dirty = true ∧
      (s.removeElement elementId).2.cachedResult = none) ∧
    (∀ s : OpticsScene,
      s.clearElements.dirty = true ∧ s.clearElements.cachedResult = none) ∧
    (∀ (s : OpticsScene) (p : PartialSceneSettings),
      (s.updateSettings p).dirty = true ∧ (s.updateSettings p).cachedResult = none) ∧
    (∀ (s : OpticsScene) (m : ViewMode),
      (s.setMode m).dirty = true ∧ (s.setMode m).cachedResult = none) ∧
    (∀ (s : OpticsScene) (d : ℝ),
      (s.setRayDensity d).dirty = true ∧ (s.setRayDensity d).cachedResult = none) ∧
    (∀ (s : OpticsScene) (pos : Pt) (radius : ℝ),
      (s.setObserver pos radius).dirty = true ∧
      (s.setObserver pos radius).cachedResult = none) ∧
    (∀ s : OpticsScene,
      s.clearObserver.dirty = true ∧ s.clearObserver.cachedResult = none) ∧
    (∀ s : OpticsScene, s.dirty = true → s.simulate.2.2 = true) ∧
    (∀ (s : OpticsScene) (r : TraceResult), s.dirty = false → s.cachedResult = some r →
      s.simulate = (r, s, false)) := by
  refine ⟨?_, fun s e => ⟨rfl, rfl⟩, ?_, fun s => ⟨rfl, rfl⟩, fun s p => ⟨rfl, rfl⟩,
    fun s m => ⟨rfl, rfl⟩, fun s d => ⟨rfl, rfl⟩, fun s pos radius => ⟨rfl, rfl⟩,
    fun s => ⟨rfl, rfl⟩, simulate_dirty_recomputes, simulate_clean⟩
  · intro s
    cases hd : s.dirty with
    | false =>
      cases hc : s.cachedResult with
      | some r =>
        rw [simulate_clean s r hd hc]
        rw [simulate_clean s r hd hc]
        exact ⟨rfl, rfl, rfl⟩
      | none =>
        unfold OpticsScene.simulate
        rw [hd, hc]
        exact ⟨rfl, rfl, rfl⟩
    | true =>
      unfold OpticsScene.simulate
      rw [hd]
      cases hc : s.cachedResult <;> exact ⟨rfl, rfl, rfl⟩
  · intro s elementId hany
    have hidx := findIdx?_isSome_of_any (fun e => e.eid == elementId) s.elements 0 hany
    obtain ⟨i, hi⟩ := Option.isSome_iff_exists.mp hidx
    unfold OpticsScene.removeElement
    rw [hi]
    exact ⟨rfl, rfl, rfl⟩

/-- Witness for C8: a mutation on a concrete scene dirties the cache, and a
concrete clean cached scene returns its cache without recomputation. -/
theorem simulate_cache_behavior_witness :
    ((OpticsScene.removeElement
        { elements := [.singleRaySource 1 ⟨0, 0⟩ ⟨1, 0⟩ 1 532]
          settings := DEFAULT_SETTINGS, cachedResult := none, dirty := true } 1).2.dirty =
      true) ∧
    OpticsScene.simulate
        { elements := [], settings := DEFAULT_SETTINGS
          cachedResult := some { segments := [], rays := [], images := [], truncationError := 0 }
          dirty := false } =
      ({ segments := [], rays := [], images := [], truncationError := 0 },
        { elements := [], settings := DEFAULT_SETTINGS
          cachedResult := some { segments := [], rays := [], images := [], truncationError := 0 }
          dirty := false }, false) :=
  ⟨(simulate_cache_behavior.2.2.1
      { elements := [.singleRaySource 1 ⟨0, 0⟩ ⟨1, 0⟩ 1 532]
        settings := DEFAULT_SETTINGS, cachedResult := none, dirty := true } 1 rfl).2.1,
   simulate_cache_behavior.2.2.2.2.2.2.2.2.2.2
      { elements := [], settings := DEFAULT_SETTINGS
        cachedResult := some { segments := [], rays := [], images := [], truncationError := 0 }
        dirty := false }
      { segments := [], rays := [], images := [], truncationError := 0 } rfl rfl⟩

/-- C9: removeElement with an id matching no element returns false and
leaves the scene record completely unchanged, so a subsequent simulate on a
clean cached scene still returns the previously cached result without
recomputation. -/
theorem removeElement_missing_id (s : OpticsScene) (elementId : ℕ)
    (h : s.elements.all (fun e => !(e.eid == elementId)) = true) :
    s.removeElement elementId = (false, s) ∧
    (∀ r : TraceResult, s.dirty = false → s.cachedResult = some r →
      (s.removeElement elementId).2.simulate = (r, s, false)) := by
  have hnone := findIdx?_eq_none_of_all_not (fun e => e.eid == elementId) s.elements 0 h
  have hrem : s.removeElement elementId = (false, s) := by
    unfold OpticsScene.removeElement
    rw [hnone]
  refine ⟨hrem, fun r hd hc => ?_⟩
  rw [hrem]
  exact simulate_clean s r hd hc

/-- Witness for C9: removing a missing id from a concrete cached scene is a
no-op and the cache is still served. -/
theorem removeElement_missing_id_witness :
    OpticsScene.removeElement
        { elements := [], settings := DEFAULT_SETTINGS
          cachedResult := some { segments := [], rays := [], images := [], truncationError := 0 }
          dirty := false } 5 =
      (false,
        { elements := [], settings := DEFAULT_SETTINGS
          cachedResult := some { segments := [], rays := [], images := [], truncationError := 0 }
          dirty := false }) ∧
    (OpticsScene.removeElement
        { elements := [], settings := DEFAULT_SETTINGS
          cachedResult := some { segments := [], rays := [], images := [], truncationError := 0 }
          dirty := false } 5).2.simulate =
      ({ segments := [], rays := [], images := [], truncationError := 0 },
        { elements := [], settings := DEFAULT_SETTINGS
          cachedResult := some { segments := [], rays := [], images := [], truncationError := 0 }
          dirty := false }, false) :=
  ⟨(removeElement_missing_id
      { elements := [], settings := DEFAULT_SETTINGS
        cachedResult := some { segments := [], rays := [], images := [], truncationError := 0 }
        dirty := false } 5 rfl).1,
   (removeElement_missing_id
      { elements := [], settings := DEFAULT_SETTINGS
        cachedResult := some { segments := [], rays := [], images := [], truncationError := 0 }
        dirty := false } 5 rfl).2
      { segments := [], rays := [], images := [], truncationError := 0 } rfl rfl⟩

end Lemmas

end OpticsLab
